import Mathlib

/-!
# steam_shim.c: the Steam API compatibility shim

A shallow embedding of `GatherAndGrow/mac/steam_shim.c`.

* A C pointer is its address (`Ptr`), `NULL` is address 0.
* A C `char` is the Lean `Char` with the same code; `NUL` is code 0.  A char array is a
  `List Char`.
* The real Steam SDK is the environment `Sdk`: what `SteamAPI_InitFlat` returns and leaves in the
  error buffer it is handed, and which pointer each real versioned accessor returns.
* The effects of the shim are recorded in a `World`: the text written to `stderr`, the trace of
  calls made into the real SDK, and the memory reachable through pointer arguments.
-/

set_option linter.unusedVariables false
set_option maxRecDepth 100000

namespace SteamShim

/-! ## Data model -/

/-- A C pointer, modelled by its address. -/
abbrev Ptr := Nat

/-- The null pointer. -/
def NULL : Ptr := 0

/-- A C float argument, modelled by its bit pattern (no stub inspects it). -/
abbrev CFloat := Nat

/-- The terminating character of a C string. -/
def NUL : Char := Char.ofNat 0

/-- Line 13: typedef char SteamErrMsg[1024]; this is sizeof(SteamErrMsg). -/
def sizeofSteamErrMsg : Nat := 1024

/-- Lines 24 to 53: the real versioned accessors declared extern. -/
inductive RealAccessor where
  | SteamAPI_SteamUser_v023
  | SteamAPI_SteamFriends_v018
  | SteamAPI_SteamUtils_v010
  | SteamAPI_SteamMatchmaking_v009
  | SteamAPI_SteamMatchmakingServers_v002
  | SteamAPI_SteamRemoteStorage_v016
  | SteamAPI_SteamUserStats_v013
  | SteamAPI_SteamApps_v009
  | SteamAPI_SteamNetworking_v006
  | SteamAPI_SteamScreenshots_v003
  | SteamAPI_SteamMusic_v001
  | SteamAPI_SteamHTTP_v003
  | SteamAPI_SteamInput_v006
  | SteamAPI_SteamUGC_v021
  | SteamAPI_SteamHTMLSurface_v005
  | SteamAPI_SteamInventory_v003
  | SteamAPI_SteamVideo_v007
  | SteamAPI_SteamParentalSettings_v001
  | SteamAPI_SteamNetworkingSockets_SteamAPI_v012
  | SteamAPI_SteamNetworkingUtils_SteamAPI_v004
  | SteamAPI_SteamNetworkingMessages_SteamAPI_v002
  | SteamAPI_SteamGameServer_v015
  | SteamAPI_SteamGameServerStats_v001
  | SteamAPI_SteamGameServerUGC_v021
  | SteamAPI_SteamGameServerUtils_v010
  | SteamAPI_SteamGameServerNetworkingSockets_SteamAPI_v012
  | SteamAPI_SteamParties_v002
  | SteamAPI_SteamRemotePlay_v004
  | SteamAPI_SteamController_v008
  | SteamAPI_SteamTimeline_v004
  deriving DecidableEq, Repr

/-- The real SDK library, lines 21 to 53: the behaviour of SteamAPI_InitFlat on the buffer it is
handed (its return code and the buffer contents it leaves), and the pointer returned by each
real accessor. -/
structure Sdk where
  SteamAPI_InitFlat : List Char → Int × List Char
  accessor : RealAccessor → Ptr

/-- One call from the shim into the real SDK; an InitFlat call records the contents of the
buffer its argument points to at the moment of the call. -/
inductive SdkCall where
  | InitFlat (errMsg : List Char)
  | accessor (a : RealAccessor)
  deriving DecidableEq, Repr

/-- The state the shim can affect: the text written to stderr, the trace of calls into the real
SDK, and the memory reachable through pointer arguments (byte at each address). -/
structure World where
  stderr : List Char
  calls : List SdkCall
  mem : Ptr → Nat

/-! ## SteamAPI_Init (lines 58 to 68) -/

/-- C memset on a char array: the first n chars become c, the rest is kept. -/
def memset (s : List Char) (c : Char) (n : Nat) : List Char :=
  List.replicate n c ++ s.drop n

/-- The printf conversion %s on a char array: the chars before the first NUL.  An array without
a NUL would be read past its end, which is undefined: none. -/
def printfS (buf : List Char) : Option (List Char) :=
  if NUL ∈ buf then some (buf.takeWhile (fun c => c != NUL)) else none

/-- The printf conversion %d: decimal digits, with a leading minus sign for a negative value. -/
def printfD : Int → List Char
  | Int.ofNat n => Nat.toDigits 10 n
  | Int.negSucc n => '-' :: Nat.toDigits 10 (n + 1)

/-- Lines 58 to 68.  The parameter stack is the indeterminate initial content of the local array
errMsg.  The result is none when the behaviour is undefined (the %s read of an unterminated
buffer). -/
def SteamAPI_Init (sdk : Sdk) (stack : List Char) (w : World) : Option (Bool × World) :=
  let errMsg := memset stack NUL sizeofSteamErrMsg
  let r := sdk.SteamAPI_InitFlat errMsg
  let result := r.1
  let errMsg := r.2
  let w := { w with calls := w.calls ++ [SdkCall.InitFlat (memset stack NUL sizeofSteamErrMsg)] }
  if result != 0 then
    match printfS errMsg with
    | none => none
    | some m =>
      some (false, { w with stderr := w.stderr ++ ("SteamAPI_Init (shim): InitFlat failed (".toList
                        ++ printfD result ++ "): ".toList ++ m ++ "\n".toList) })
  else
    some (true, { w with stderr := w.stderr ++ "SteamAPI_Init (shim): Success!\n".toList })

/-- The number of lines in the text that was appended to a log: its newline characters. -/
def linesWritten (before after : List Char) : Nat :=
  (after.drop before.length).count '\n'

/-! ## Version shims (lines 73 to 90) -/

/-- A call of a real accessor: it returns the SDK pointer and is recorded in the trace. -/
def callReal (sdk : Sdk) (a : RealAccessor) (w : World) : Ptr × World :=
  (sdk.accessor a, { w with calls := w.calls ++ [SdkCall.accessor a] })

/-- Line 73: void* SteamAPI_SteamUser_v020(void)  return SteamAPI_SteamUser_v023();  -/
def SteamAPI_SteamUser_v020 (sdk : Sdk) (w : World) : Ptr × World :=
  callReal sdk .SteamAPI_SteamUser_v023 w

/-- Line 74: void* SteamAPI_SteamFriends_v017(void)  return SteamAPI_SteamFriends_v018();  -/
def SteamAPI_SteamFriends_v017 (sdk : Sdk) (w : World) : Ptr × World :=
  callReal sdk .SteamAPI_SteamFriends_v018 w

/-- Line 75: void* SteamAPI_SteamUtils_v009(void)  return SteamAPI_SteamUtils_v010();  -/
def SteamAPI_SteamUtils_v009 (sdk : Sdk) (w : World) : Ptr × World :=
  callReal sdk .SteamAPI_SteamUtils_v010 w

/-- Line 76: void* SteamAPI_SteamRemoteStorage_v014(void)  return SteamAPI_SteamRemoteStorage_v016();  -/
def SteamAPI_SteamRemoteStorage_v014 (sdk : Sdk) (w : World) : Ptr × World :=
  callReal sdk .SteamAPI_SteamRemoteStorage_v016 w

/-- Line 77: void* SteamAPI_SteamUserStats_v011(void)  return SteamAPI_SteamUserStats_v013();  -/
def SteamAPI_SteamUserStats_v011 (sdk : Sdk) (w : World) : Ptr × World :=
  callReal sdk .SteamAPI_SteamUserStats_v013 w

/-- Line 78: void* SteamAPI_SteamApps_v008(void)  return SteamAPI_SteamApps_v009();  -/
def SteamAPI_SteamApps_v008 (sdk : Sdk) (w : World) : Ptr × World :=
  callReal sdk .SteamAPI_SteamApps_v009 w

/-- Line 79: void* SteamAPI_SteamInput_v001(void)  return SteamAPI_SteamInput_v006();  -/
def SteamAPI_SteamInput_v001 (sdk : Sdk) (w : World) : Ptr × World :=
  callReal sdk .SteamAPI_SteamInput_v006 w

/-- Line 80: void* SteamAPI_SteamUGC_v014(void)  return SteamAPI_SteamUGC_v021();  -/
def SteamAPI_SteamUGC_v014 (sdk : Sdk) (w : World) : Ptr × World :=
  callReal sdk .SteamAPI_SteamUGC_v021 w

/-- Line 81: void* SteamAPI_SteamVideo_v002(void)  return SteamAPI_SteamVideo_v007();  -/
def SteamAPI_SteamVideo_v002 (sdk : Sdk) (w : World) : Ptr × World :=
  callReal sdk .SteamAPI_SteamVideo_v007 w

/-- Line 82: void* SteamAPI_SteamController_v007(void)  return SteamAPI_SteamController_v008();  -/
def SteamAPI_SteamController_v007 (sdk : Sdk) (w : World) : Ptr × World :=
  callReal sdk .SteamAPI_SteamController_v008 w

/-- Line 83: void* SteamAPI_SteamRemotePlay_v001(void)  return SteamAPI_SteamRemotePlay_v004();  -/
def SteamAPI_SteamRemotePlay_v001 (sdk : Sdk) (w : World) : Ptr × World :=
  callReal sdk .SteamAPI_SteamRemotePlay_v004 w

/-- Line 84: void* SteamAPI_SteamNetworkingSockets_v008(void)  return SteamAPI_SteamNetworkingSockets_SteamAPI_v012();  -/
def SteamAPI_SteamNetworkingSockets_v008 (sdk : Sdk) (w : World) : Ptr × World :=
  callReal sdk .SteamAPI_SteamNetworkingSockets_SteamAPI_v012 w

/-- Line 85: void* SteamAPI_SteamNetworkingUtils_v003(void)  return SteamAPI_SteamNetworkingUtils_SteamAPI_v004();  -/
def SteamAPI_SteamNetworkingUtils_v003 (sdk : Sdk) (w : World) : Ptr × World :=
  callReal sdk .SteamAPI_SteamNetworkingUtils_SteamAPI_v004 w

/-- Line 86: void* SteamAPI_SteamGameServer_v013(void)  return SteamAPI_SteamGameServer_v015();  -/
def SteamAPI_SteamGameServer_v013 (sdk : Sdk) (w : World) : Ptr × World :=
  callReal sdk .SteamAPI_SteamGameServer_v015 w

/-- Line 87: void* SteamAPI_SteamGameServerApps_v008(void)  return SteamAPI_SteamApps_v009();  -/
def SteamAPI_SteamGameServerApps_v008 (sdk : Sdk) (w : World) : Ptr × World :=
  callReal sdk .SteamAPI_SteamApps_v009 w

/-- Line 88: void* SteamAPI_SteamGameServerUtils_v009(void)  return SteamAPI_SteamGameServerUtils_v010();  -/
def SteamAPI_SteamGameServerUtils_v009 (sdk : Sdk) (w : World) : Ptr × World :=
  callReal sdk .SteamAPI_SteamGameServerUtils_v010 w

/-- Line 89: void* SteamAPI_SteamGameServerNetworkingSockets_v008(void)  return SteamAPI_SteamGameServerNetworkingSockets_SteamAPI_v012();  -/
def SteamAPI_SteamGameServerNetworkingSockets_v008 (sdk : Sdk) (w : World) : Ptr × World :=
  callReal sdk .SteamAPI_SteamGameServerNetworkingSockets_SteamAPI_v012 w

/-- Line 90: void* SteamAPI_SteamGameServerUGC_v014(void)  return SteamAPI_SteamGameServerUGC_v021();  -/
def SteamAPI_SteamGameServerUGC_v014 (sdk : Sdk) (w : World) : Ptr × World :=
  callReal sdk .SteamAPI_SteamGameServerUGC_v021 w

/-- The eighteen legacy accessor symbols of lines 73 to 90. -/
inductive LegacyAccessor where
  | SteamAPI_SteamUser_v020
  | SteamAPI_SteamFriends_v017
  | SteamAPI_SteamUtils_v009
  | SteamAPI_SteamRemoteStorage_v014
  | SteamAPI_SteamUserStats_v011
  | SteamAPI_SteamApps_v008
  | SteamAPI_SteamInput_v001
  | SteamAPI_SteamUGC_v014
  | SteamAPI_SteamVideo_v002
  | SteamAPI_SteamController_v007
  | SteamAPI_SteamRemotePlay_v001
  | SteamAPI_SteamNetworkingSockets_v008
  | SteamAPI_SteamNetworkingUtils_v003
  | SteamAPI_SteamGameServer_v013
  | SteamAPI_SteamGameServerApps_v008
  | SteamAPI_SteamGameServerUtils_v009
  | SteamAPI_SteamGameServerNetworkingSockets_v008
  | SteamAPI_SteamGameServerUGC_v014
  deriving DecidableEq, Repr

/-- Calling a legacy accessor symbol runs the function of that name. -/
def callLegacy (sdk : Sdk) : LegacyAccessor → World → Ptr × World
  | .SteamAPI_SteamUser_v020, w => SteamShim.SteamAPI_SteamUser_v020 sdk w
  | .SteamAPI_SteamFriends_v017, w => SteamShim.SteamAPI_SteamFriends_v017 sdk w
  | .SteamAPI_SteamUtils_v009, w => SteamShim.SteamAPI_SteamUtils_v009 sdk w
  | .SteamAPI_SteamRemoteStorage_v014, w => SteamShim.SteamAPI_SteamRemoteStorage_v014 sdk w
  | .SteamAPI_SteamUserStats_v011, w => SteamShim.SteamAPI_SteamUserStats_v011 sdk w
  | .SteamAPI_SteamApps_v008, w => SteamShim.SteamAPI_SteamApps_v008 sdk w
  | .SteamAPI_SteamInput_v001, w => SteamShim.SteamAPI_SteamInput_v001 sdk w
  | .SteamAPI_SteamUGC_v014, w => SteamShim.SteamAPI_SteamUGC_v014 sdk w
  | .SteamAPI_SteamVideo_v002, w => SteamShim.SteamAPI_SteamVideo_v002 sdk w
  | .SteamAPI_SteamController_v007, w => SteamShim.SteamAPI_SteamController_v007 sdk w
  | .SteamAPI_SteamRemotePlay_v001, w => SteamShim.SteamAPI_SteamRemotePlay_v001 sdk w
  | .SteamAPI_SteamNetworkingSockets_v008, w => SteamShim.SteamAPI_SteamNetworkingSockets_v008 sdk w
  | .SteamAPI_SteamNetworkingUtils_v003, w => SteamShim.SteamAPI_SteamNetworkingUtils_v003 sdk w
  | .SteamAPI_SteamGameServer_v013, w => SteamShim.SteamAPI_SteamGameServer_v013 sdk w
  | .SteamAPI_SteamGameServerApps_v008, w => SteamShim.SteamAPI_SteamGameServerApps_v008 sdk w
  | .SteamAPI_SteamGameServerUtils_v009, w => SteamShim.SteamAPI_SteamGameServerUtils_v009 sdk w
  | .SteamAPI_SteamGameServerNetworkingSockets_v008, w => SteamShim.SteamAPI_SteamGameServerNetworkingSockets_v008 sdk w
  | .SteamAPI_SteamGameServerUGC_v014, w => SteamShim.SteamAPI_SteamGameServerUGC_v014 sdk w

/-- The SDK interfaces served by the real accessors. -/
inductive Interface where
  | ISteamUser
  | ISteamFriends
  | ISteamUtils
  | ISteamMatchmaking
  | ISteamMatchmakingServers
  | ISteamRemoteStorage
  | ISteamUserStats
  | ISteamApps
  | ISteamNetworking
  | ISteamScreenshots
  | ISteamMusic
  | ISteamHTTP
  | ISteamInput
  | ISteamUGC
  | ISteamHTMLSurface
  | ISteamInventory
  | ISteamVideo
  | ISteamParentalSettings
  | ISteamNetworkingSockets
  | ISteamNetworkingUtils
  | ISteamNetworkingMessages
  | ISteamGameServer
  | ISteamGameServerStats
  | ISteamParties
  | ISteamRemotePlay
  | ISteamController
  | ISteamTimeline
  deriving DecidableEq, Repr

/-- The interface whose pointer a real accessor returns (from its symbol name). -/
def RealAccessor.interface : RealAccessor → Interface
  | .SteamAPI_SteamUser_v023 => .ISteamUser
  | .SteamAPI_SteamFriends_v018 => .ISteamFriends
  | .SteamAPI_SteamUtils_v010 => .ISteamUtils
  | .SteamAPI_SteamMatchmaking_v009 => .ISteamMatchmaking
  | .SteamAPI_SteamMatchmakingServers_v002 => .ISteamMatchmakingServers
  | .SteamAPI_SteamRemoteStorage_v016 => .ISteamRemoteStorage
  | .SteamAPI_SteamUserStats_v013 => .ISteamUserStats
  | .SteamAPI_SteamApps_v009 => .ISteamApps
  | .SteamAPI_SteamNetworking_v006 => .ISteamNetworking
  | .SteamAPI_SteamScreenshots_v003 => .ISteamScreenshots
  | .SteamAPI_SteamMusic_v001 => .ISteamMusic
  | .SteamAPI_SteamHTTP_v003 => .ISteamHTTP
  | .SteamAPI_SteamInput_v006 => .ISteamInput
  | .SteamAPI_SteamUGC_v021 => .ISteamUGC
  | .SteamAPI_SteamHTMLSurface_v005 => .ISteamHTMLSurface
  | .SteamAPI_SteamInventory_v003 => .ISteamInventory
  | .SteamAPI_SteamVideo_v007 => .ISteamVideo
  | .SteamAPI_SteamParentalSettings_v001 => .ISteamParentalSettings
  | .SteamAPI_SteamNetworkingSockets_SteamAPI_v012 => .ISteamNetworkingSockets
  | .SteamAPI_SteamNetworkingUtils_SteamAPI_v004 => .ISteamNetworkingUtils
  | .SteamAPI_SteamNetworkingMessages_SteamAPI_v002 => .ISteamNetworkingMessages
  | .SteamAPI_SteamGameServer_v015 => .ISteamGameServer
  | .SteamAPI_SteamGameServerStats_v001 => .ISteamGameServerStats
  | .SteamAPI_SteamGameServerUGC_v021 => .ISteamUGC
  | .SteamAPI_SteamGameServerUtils_v010 => .ISteamUtils
  | .SteamAPI_SteamGameServerNetworkingSockets_SteamAPI_v012 => .ISteamNetworkingSockets
  | .SteamAPI_SteamParties_v002 => .ISteamParties
  | .SteamAPI_SteamRemotePlay_v004 => .ISteamRemotePlay
  | .SteamAPI_SteamController_v008 => .ISteamController
  | .SteamAPI_SteamTimeline_v004 => .ISteamTimeline

/-- Whether a real accessor is a game-server accessor (from its symbol name). -/
def RealAccessor.gameServer : RealAccessor → Bool
  | .SteamAPI_SteamUser_v023 => false
  | .SteamAPI_SteamFriends_v018 => false
  | .SteamAPI_SteamUtils_v010 => false
  | .SteamAPI_SteamMatchmaking_v009 => false
  | .SteamAPI_SteamMatchmakingServers_v002 => false
  | .SteamAPI_SteamRemoteStorage_v016 => false
  | .SteamAPI_SteamUserStats_v013 => false
  | .SteamAPI_SteamApps_v009 => false
  | .SteamAPI_SteamNetworking_v006 => false
  | .SteamAPI_SteamScreenshots_v003 => false
  | .SteamAPI_SteamMusic_v001 => false
  | .SteamAPI_SteamHTTP_v003 => false
  | .SteamAPI_SteamInput_v006 => false
  | .SteamAPI_SteamUGC_v021 => false
  | .SteamAPI_SteamHTMLSurface_v005 => false
  | .SteamAPI_SteamInventory_v003 => false
  | .SteamAPI_SteamVideo_v007 => false
  | .SteamAPI_SteamParentalSettings_v001 => false
  | .SteamAPI_SteamNetworkingSockets_SteamAPI_v012 => false
  | .SteamAPI_SteamNetworkingUtils_SteamAPI_v004 => false
  | .SteamAPI_SteamNetworkingMessages_SteamAPI_v002 => false
  | .SteamAPI_SteamGameServer_v015 => true
  | .SteamAPI_SteamGameServerStats_v001 => true
  | .SteamAPI_SteamGameServerUGC_v021 => true
  | .SteamAPI_SteamGameServerUtils_v010 => true
  | .SteamAPI_SteamGameServerNetworkingSockets_SteamAPI_v012 => true
  | .SteamAPI_SteamParties_v002 => false
  | .SteamAPI_SteamRemotePlay_v004 => false
  | .SteamAPI_SteamController_v008 => false
  | .SteamAPI_SteamTimeline_v004 => false

/-- The interface whose pointer a legacy accessor is expected to return (from its symbol name). -/
def LegacyAccessor.interface : LegacyAccessor → Interface
  | .SteamAPI_SteamUser_v020 => .ISteamUser
  | .SteamAPI_SteamFriends_v017 => .ISteamFriends
  | .SteamAPI_SteamUtils_v009 => .ISteamUtils
  | .SteamAPI_SteamRemoteStorage_v014 => .ISteamRemoteStorage
  | .SteamAPI_SteamUserStats_v011 => .ISteamUserStats
  | .SteamAPI_SteamApps_v008 => .ISteamApps
  | .SteamAPI_SteamInput_v001 => .ISteamInput
  | .SteamAPI_SteamUGC_v014 => .ISteamUGC
  | .SteamAPI_SteamVideo_v002 => .ISteamVideo
  | .SteamAPI_SteamController_v007 => .ISteamController
  | .SteamAPI_SteamRemotePlay_v001 => .ISteamRemotePlay
  | .SteamAPI_SteamNetworkingSockets_v008 => .ISteamNetworkingSockets
  | .SteamAPI_SteamNetworkingUtils_v003 => .ISteamNetworkingUtils
  | .SteamAPI_SteamGameServer_v013 => .ISteamGameServer
  | .SteamAPI_SteamGameServerApps_v008 => .ISteamApps
  | .SteamAPI_SteamGameServerUtils_v009 => .ISteamUtils
  | .SteamAPI_SteamGameServerNetworkingSockets_v008 => .ISteamNetworkingSockets
  | .SteamAPI_SteamGameServerUGC_v014 => .ISteamUGC

/-- Whether a legacy accessor is a game-server accessor (from its symbol name). -/
def LegacyAccessor.gameServer : LegacyAccessor → Bool
  | .SteamAPI_SteamUser_v020 => false
  | .SteamAPI_SteamFriends_v017 => false
  | .SteamAPI_SteamUtils_v009 => false
  | .SteamAPI_SteamRemoteStorage_v014 => false
  | .SteamAPI_SteamUserStats_v011 => false
  | .SteamAPI_SteamApps_v008 => false
  | .SteamAPI_SteamInput_v001 => false
  | .SteamAPI_SteamUGC_v014 => false
  | .SteamAPI_SteamVideo_v002 => false
  | .SteamAPI_SteamController_v007 => false
  | .SteamAPI_SteamRemotePlay_v001 => false
  | .SteamAPI_SteamNetworkingSockets_v008 => false
  | .SteamAPI_SteamNetworkingUtils_v003 => false
  | .SteamAPI_SteamGameServer_v013 => true
  | .SteamAPI_SteamGameServerApps_v008 => true
  | .SteamAPI_SteamGameServerUtils_v009 => true
  | .SteamAPI_SteamGameServerNetworkingSockets_v008 => true
  | .SteamAPI_SteamGameServerUGC_v014 => true

/-- The real accessors in the order of their declarations, lines 24 to 53. -/
def realAccessors : List RealAccessor :=
  [.SteamAPI_SteamUser_v023,
   .SteamAPI_SteamFriends_v018,
   .SteamAPI_SteamUtils_v010,
   .SteamAPI_SteamMatchmaking_v009,
   .SteamAPI_SteamMatchmakingServers_v002,
   .SteamAPI_SteamRemoteStorage_v016,
   .SteamAPI_SteamUserStats_v013,
   .SteamAPI_SteamApps_v009,
   .SteamAPI_SteamNetworking_v006,
   .SteamAPI_SteamScreenshots_v003,
   .SteamAPI_SteamMusic_v001,
   .SteamAPI_SteamHTTP_v003,
   .SteamAPI_SteamInput_v006,
   .SteamAPI_SteamUGC_v021,
   .SteamAPI_SteamHTMLSurface_v005,
   .SteamAPI_SteamInventory_v003,
   .SteamAPI_SteamVideo_v007,
   .SteamAPI_SteamParentalSettings_v001,
   .SteamAPI_SteamNetworkingSockets_SteamAPI_v012,
   .SteamAPI_SteamNetworkingUtils_SteamAPI_v004,
   .SteamAPI_SteamNetworkingMessages_SteamAPI_v002,
   .SteamAPI_SteamGameServer_v015,
   .SteamAPI_SteamGameServerStats_v001,
   .SteamAPI_SteamGameServerUGC_v021,
   .SteamAPI_SteamGameServerUtils_v010,
   .SteamAPI_SteamGameServerNetworkingSockets_SteamAPI_v012,
   .SteamAPI_SteamParties_v002,
   .SteamAPI_SteamRemotePlay_v004,
   .SteamAPI_SteamController_v008,
   .SteamAPI_SteamTimeline_v004]

/-- The legacy accessors in the order of their definitions, lines 73 to 90. -/
def legacyAccessors : List LegacyAccessor :=
  [.SteamAPI_SteamUser_v020,
   .SteamAPI_SteamFriends_v017,
   .SteamAPI_SteamUtils_v009,
   .SteamAPI_SteamRemoteStorage_v014,
   .SteamAPI_SteamUserStats_v011,
   .SteamAPI_SteamApps_v008,
   .SteamAPI_SteamInput_v001,
   .SteamAPI_SteamUGC_v014,
   .SteamAPI_SteamVideo_v002,
   .SteamAPI_SteamController_v007,
   .SteamAPI_SteamRemotePlay_v001,
   .SteamAPI_SteamNetworkingSockets_v008,
   .SteamAPI_SteamNetworkingUtils_v003,
   .SteamAPI_SteamGameServer_v013,
   .SteamAPI_SteamGameServerApps_v008,
   .SteamAPI_SteamGameServerUtils_v009,
   .SteamAPI_SteamGameServerNetworkingSockets_v008,
   .SteamAPI_SteamGameServerUGC_v014]

/-- Reading of the specification: the current accessor that corresponds to a legacy accessor is
the real accessor of the same interface, the one of the same kind (user or game server) when
the SDK declares one, and otherwise the accessor the SDK declares for that interface. -/
def currentAccessor (l : LegacyAccessor) : Option RealAccessor :=
  match realAccessors.filter
      (fun r => r.interface == l.interface && r.gameServer == l.gameServer) with
  | r :: _ => some r
  | [] => (realAccessors.filter (fun r => r.interface == l.interface)).head?

/-! ## Stubs for removed interfaces and removed flat API functions (lines 93 to 213) -/

/-- Line 93: void* SteamAPI_SteamAppList_v001(void) -/
def SteamAPI_SteamAppList_v001 (w : World) : Ptr × World :=
  (NULL, w)

/-- Line 94: void* SteamAPI_SteamGameSearch_v001(void) -/
def SteamAPI_SteamGameSearch_v001 (w : World) : Ptr × World :=
  (NULL, w)

/-- Line 95: void* SteamAPI_SteamMusicRemote_v001(void) -/
def SteamAPI_SteamMusicRemote_v001 (w : World) : Ptr × World :=
  (NULL, w)

/-- Line 96: void* SteamAPI_SteamTV_v001(void) -/
def SteamAPI_SteamTV_v001 (w : World) : Ptr × World :=
  (NULL, w)

/-- Line 105: bool SteamAPI_ISteamUserStats_RequestCurrentStats(void* self) -/
def SteamAPI_ISteamUserStats_RequestCurrentStats (self : Ptr) (w : World) : Bool × World :=
  (true, w)

/-- Line 110: uint32 SteamAPI_ISteamFriends_GetUserRestrictions(void* self) -/
def SteamAPI_ISteamFriends_GetUserRestrictions (self : Ptr) (w : World) : Nat × World :=
  (0, w)

/-- Line 111: SteamAPICall_t SteamAPI_ISteamFriends_SetPersonaName(void* self, const char* name) -/
def SteamAPI_ISteamFriends_SetPersonaName (self : Ptr) (name : Ptr) (w : World) : Int × World :=
  (0, w)

/-- Line 114: int32 SteamAPI_ISteamUser_InitiateGameConnection(void* self, void* pAuthBlob, int cbMaxAuthBlob, uint64 steamIDGameServer, uint32 unIPServer, uint16_t usPortServer, bool bSecure) -/
def SteamAPI_ISteamUser_InitiateGameConnection (self : Ptr) (pAuthBlob : Ptr) (cbMaxAuthBlob : Int) (steamIDGameServer : Nat) (unIPServer : Nat) (usPortServer : Nat) (bSecure : Bool) (w : World) : Int × World :=
  (0, w)

/-- Line 115: void SteamAPI_ISteamUser_TerminateGameConnection(void* self, uint32 unIPServer, uint16_t usPortServer) -/
def SteamAPI_ISteamUser_TerminateGameConnection (self : Ptr) (unIPServer : Nat) (usPortServer : Nat) (w : World) : Unit × World :=
  ((), w)

/-- Line 118: bool SteamAPI_ISteamUtils_GetCSERIPPort(void* self, uint32* unIP, uint16_t* usPort) -/
def SteamAPI_ISteamUtils_GetCSERIPPort (self : Ptr) (unIP : Ptr) (usPort : Ptr) (w : World) : Bool × World :=
  (false, w)

/-- Line 121: const char* SteamAPI_ISteamInput_GetGlyphForActionOrigin(void* self, int eOrigin) -/
def SteamAPI_ISteamInput_GetGlyphForActionOrigin (self : Ptr) (eOrigin : Int) (w : World) : List Char × World :=
  ([], w)

/-- Line 122: void SteamAPI_ISteamInput_TriggerHapticPulse(void* self, uint64 inputHandle, int eTargetPad, uint16_t usDurationMicroSec) -/
def SteamAPI_ISteamInput_TriggerHapticPulse (self : Ptr) (inputHandle : Nat) (eTargetPad : Int) (usDurationMicroSec : Nat) (w : World) : Unit × World :=
  ((), w)

/-- Line 123: void SteamAPI_ISteamInput_TriggerRepeatedHapticPulse(void* self, uint64 inputHandle, int eTargetPad, uint16_t usDurationMicroSec, uint16_t usOffMicroSec, uint16_t unRepeat, uint32 nFlags) -/
def SteamAPI_ISteamInput_TriggerRepeatedHapticPulse (self : Ptr) (inputHandle : Nat) (eTargetPad : Int) (usDurationMicroSec : Nat) (usOffMicroSec : Nat) (unRepeat : Nat) (nFlags : Nat) (w : World) : Unit × World :=
  ((), w)

/-- Line 126: bool SteamAPI_ISteamNetworkingSockets_GetQuickConnectionStatus(void* self, uint32 hConn, void* pStats) -/
def SteamAPI_ISteamNetworkingSockets_GetQuickConnectionStatus (self : Ptr) (hConn : Nat) (pStats : Ptr) (w : World) : Bool × World :=
  (false, w)

/-- Line 129: int SteamAPI_ISteamNetworkingUtils_GetFirstConfigValue(void* self) -/
def SteamAPI_ISteamNetworkingUtils_GetFirstConfigValue (self : Ptr) (w : World) : Int × World :=
  (-1, w)

/-- Line 132: void* SteamAPI_ISteamClient_GetISteamAppList(void* self, int32 hSteamUser, int32 hSteamPipe, const char* pchVersion) -/
def SteamAPI_ISteamClient_GetISteamAppList (self : Ptr) (hSteamUser : Int) (hSteamPipe : Int) (pchVersion : Ptr) (w : World) : Ptr × World :=
  (NULL, w)

/-- Line 133: void* SteamAPI_ISteamClient_GetISteamGameSearch(void* self, int32 hSteamUser, int32 hSteamPipe, const char* pchVersion) -/
def SteamAPI_ISteamClient_GetISteamGameSearch (self : Ptr) (hSteamUser : Int) (hSteamPipe : Int) (pchVersion : Ptr) (w : World) : Ptr × World :=
  (NULL, w)

/-- Line 134: void* SteamAPI_ISteamClient_GetISteamMusicRemote(void* self, int32 hSteamUser, int32 hSteamPipe, const char* pchVersion) -/
def SteamAPI_ISteamClient_GetISteamMusicRemote (self : Ptr) (hSteamUser : Int) (hSteamPipe : Int) (pchVersion : Ptr) (w : World) : Ptr × World :=
  (NULL, w)

/-- Line 137: void SteamAPI_ISteamGameServer_EnableHeartbeats(void* self, bool bActive) -/
def SteamAPI_ISteamGameServer_EnableHeartbeats (self : Ptr) (bActive : Bool) (w : World) : Unit × World :=
  ((), w)

/-- Line 138: void SteamAPI_ISteamGameServer_ForceHeartbeat(void* self) -/
def SteamAPI_ISteamGameServer_ForceHeartbeat (self : Ptr) (w : World) : Unit × World :=
  ((), w)

/-- Line 139: void SteamAPI_ISteamGameServer_SetHeartbeatInterval(void* self, int iHeartbeatInterval) -/
def SteamAPI_ISteamGameServer_SetHeartbeatInterval (self : Ptr) (iHeartbeatInterval : Int) (w : World) : Unit × World :=
  ((), w)

/-- Line 140: bool SteamAPI_ISteamGameServer_SendUserConnectAndAuthenticate(void* self, uint32 unIPClient, const void* pvAuthBlob, uint32 cubAuthBlobSize, void* pSteamIDUser) -/
def SteamAPI_ISteamGameServer_SendUserConnectAndAuthenticate (self : Ptr) (unIPClient : Nat) (pvAuthBlob : Ptr) (cubAuthBlobSize : Nat) (pSteamIDUser : Ptr) (w : World) : Bool × World :=
  (false, w)

/-- Line 141: void SteamAPI_ISteamGameServer_SendUserDisconnect(void* self, uint64 steamIDUser) -/
def SteamAPI_ISteamGameServer_SendUserDisconnect (self : Ptr) (steamIDUser : Nat) (w : World) : Unit × World :=
  ((), w)

/-- Line 144: uint32 SteamAPI_ISteamAppList_GetNumInstalledApps(void* self) -/
def SteamAPI_ISteamAppList_GetNumInstalledApps (self : Ptr) (w : World) : Nat × World :=
  (0, w)

/-- Line 145: uint32 SteamAPI_ISteamAppList_GetInstalledApps(void* self, void* pvecAppID, uint32 unMaxAppIDs) -/
def SteamAPI_ISteamAppList_GetInstalledApps (self : Ptr) (pvecAppID : Ptr) (unMaxAppIDs : Nat) (w : World) : Nat × World :=
  (0, w)

/-- Line 146: int32 SteamAPI_ISteamAppList_GetAppName(void* self, uint32 nAppID, char* pchName, int32 cchNameMax) -/
def SteamAPI_ISteamAppList_GetAppName (self : Ptr) (nAppID : Nat) (pchName : Ptr) (cchNameMax : Int) (w : World) : Int × World :=
  (0, w)

/-- Line 147: int32 SteamAPI_ISteamAppList_GetAppInstallDir(void* self, uint32 nAppID, char* pchDirectory, int32 cchNameMax) -/
def SteamAPI_ISteamAppList_GetAppInstallDir (self : Ptr) (nAppID : Nat) (pchDirectory : Ptr) (cchNameMax : Int) (w : World) : Int × World :=
  (0, w)

/-- Line 148: int32 SteamAPI_ISteamAppList_GetAppBuildId(void* self, uint32 nAppID) -/
def SteamAPI_ISteamAppList_GetAppBuildId (self : Ptr) (nAppID : Nat) (w : World) : Int × World :=
  (0, w)

/-- Line 151: int SteamAPI_ISteamGameSearch_AddGameSearchParams(void* self, const char* key, const char* val) -/
def SteamAPI_ISteamGameSearch_AddGameSearchParams (self : Ptr) (key : Ptr) (val : Ptr) (w : World) : Int × World :=
  (0, w)

/-- Line 152: int SteamAPI_ISteamGameSearch_SearchForGameWithLobby(void* self, uint64 steamIDLobby, int nPlayerMin, int nPlayerMax) -/
def SteamAPI_ISteamGameSearch_SearchForGameWithLobby (self : Ptr) (steamIDLobby : Nat) (nPlayerMin : Int) (nPlayerMax : Int) (w : World) : Int × World :=
  (0, w)

/-- Line 153: int SteamAPI_ISteamGameSearch_SearchForGameSolo(void* self, int nPlayerMin, int nPlayerMax) -/
def SteamAPI_ISteamGameSearch_SearchForGameSolo (self : Ptr) (nPlayerMin : Int) (nPlayerMax : Int) (w : World) : Int × World :=
  (0, w)

/-- Line 154: int SteamAPI_ISteamGameSearch_AcceptGame(void* self) -/
def SteamAPI_ISteamGameSearch_AcceptGame (self : Ptr) (w : World) : Int × World :=
  (0, w)

/-- Line 155: int SteamAPI_ISteamGameSearch_DeclineGame(void* self) -/
def SteamAPI_ISteamGameSearch_DeclineGame (self : Ptr) (w : World) : Int × World :=
  (0, w)

/-- Line 156: int SteamAPI_ISteamGameSearch_RetrieveConnectionDetails(void* self, uint64 steamIDHost, char* pchConnectionDetails, int cubConnectionDetails) -/
def SteamAPI_ISteamGameSearch_RetrieveConnectionDetails (self : Ptr) (steamIDHost : Nat) (pchConnectionDetails : Ptr) (cubConnectionDetails : Int) (w : World) : Int × World :=
  (0, w)

/-- Line 157: int SteamAPI_ISteamGameSearch_EndGameSearch(void* self) -/
def SteamAPI_ISteamGameSearch_EndGameSearch (self : Ptr) (w : World) : Int × World :=
  (0, w)

/-- Line 158: int SteamAPI_ISteamGameSearch_SetGameHostParams(void* self, const char* key, const char* val) -/
def SteamAPI_ISteamGameSearch_SetGameHostParams (self : Ptr) (key : Ptr) (val : Ptr) (w : World) : Int × World :=
  (0, w)

/-- Line 159: int SteamAPI_ISteamGameSearch_SetConnectionDetails(void* self, const char* pchConnectionDetails, int cubConnectionDetails) -/
def SteamAPI_ISteamGameSearch_SetConnectionDetails (self : Ptr) (pchConnectionDetails : Ptr) (cubConnectionDetails : Int) (w : World) : Int × World :=
  (0, w)

/-- Line 160: int SteamAPI_ISteamGameSearch_RequestPlayersForGame(void* self, int nPlayerMin, int nPlayerMax, int nMaxTeamSize) -/
def SteamAPI_ISteamGameSearch_RequestPlayersForGame (self : Ptr) (nPlayerMin : Int) (nPlayerMax : Int) (nMaxTeamSize : Int) (w : World) : Int × World :=
  (0, w)

/-- Line 161: int SteamAPI_ISteamGameSearch_HostConfirmGameStart(void* self, uint64 ulUniqueGameID) -/
def SteamAPI_ISteamGameSearch_HostConfirmGameStart (self : Ptr) (ulUniqueGameID : Nat) (w : World) : Int × World :=
  (0, w)

/-- Line 162: int SteamAPI_ISteamGameSearch_CancelRequestPlayersForGame(void* self) -/
def SteamAPI_ISteamGameSearch_CancelRequestPlayersForGame (self : Ptr) (w : World) : Int × World :=
  (0, w)

/-- Line 163: int SteamAPI_ISteamGameSearch_SubmitPlayerResult(void* self, uint64 ulUniqueGameID, uint64 steamIDPlayer, int EPlayerResult) -/
def SteamAPI_ISteamGameSearch_SubmitPlayerResult (self : Ptr) (ulUniqueGameID : Nat) (steamIDPlayer : Nat) (EPlayerResult : Int) (w : World) : Int × World :=
  (0, w)

/-- Line 164: int SteamAPI_ISteamGameSearch_EndGame(void* self, uint64 ulUniqueGameID) -/
def SteamAPI_ISteamGameSearch_EndGame (self : Ptr) (ulUniqueGameID : Nat) (w : World) : Int × World :=
  (0, w)

/-- Line 167: bool SteamAPI_ISteamTV_IsBroadcasting(void* self, int* pnNumViewers) -/
def SteamAPI_ISteamTV_IsBroadcasting (self : Ptr) (pnNumViewers : Ptr) (w : World) : Bool × World :=
  (false, w)

/-- Line 168: void SteamAPI_ISteamTV_AddBroadcastGameData(void* self, const char* pchKey, const char* pchValue) -/
def SteamAPI_ISteamTV_AddBroadcastGameData (self : Ptr) (pchKey : Ptr) (pchValue : Ptr) (w : World) : Unit × World :=
  ((), w)

/-- Line 169: void SteamAPI_ISteamTV_RemoveBroadcastGameData(void* self, const char* pchKey) -/
def SteamAPI_ISteamTV_RemoveBroadcastGameData (self : Ptr) (pchKey : Ptr) (w : World) : Unit × World :=
  ((), w)

/-- Line 170: void SteamAPI_ISteamTV_AddTimelineMarker(void* self, const char* pchTemplateName, bool bPersistent, uint8_t nColorR, uint8_t nColorG, uint8_t nColorB) -/
def SteamAPI_ISteamTV_AddTimelineMarker (self : Ptr) (pchTemplateName : Ptr) (bPersistent : Bool) (nColorR : Nat) (nColorG : Nat) (nColorB : Nat) (w : World) : Unit × World :=
  ((), w)

/-- Line 171: void SteamAPI_ISteamTV_RemoveTimelineMarker(void* self) -/
def SteamAPI_ISteamTV_RemoveTimelineMarker (self : Ptr) (w : World) : Unit × World :=
  ((), w)

/-- Line 172: uint32 SteamAPI_ISteamTV_AddRegion(void* self, const char* pchElementName, const char* pchTimelineDataDescription, void* rSrcPosition, uint32 unSrcDimension) -/
def SteamAPI_ISteamTV_AddRegion (self : Ptr) (pchElementName : Ptr) (pchTimelineDataDescription : Ptr) (rSrcPosition : Ptr) (unSrcDimension : Nat) (w : World) : Nat × World :=
  (0, w)

/-- Line 173: void SteamAPI_ISteamTV_RemoveRegion(void* self, uint32 unRegionHandle) -/
def SteamAPI_ISteamTV_RemoveRegion (self : Ptr) (unRegionHandle : Nat) (w : World) : Unit × World :=
  ((), w)

/-- Line 176: bool SteamAPI_ISteamMusicRemote_RegisterSteamMusicRemote(void* self, const char* pchName) -/
def SteamAPI_ISteamMusicRemote_RegisterSteamMusicRemote (self : Ptr) (pchName : Ptr) (w : World) : Bool × World :=
  (false, w)

/-- Line 177: bool SteamAPI_ISteamMusicRemote_DeregisterSteamMusicRemote(void* self) -/
def SteamAPI_ISteamMusicRemote_DeregisterSteamMusicRemote (self : Ptr) (w : World) : Bool × World :=
  (false, w)

/-- Line 178: bool SteamAPI_ISteamMusicRemote_BIsCurrentMusicRemote(void* self) -/
def SteamAPI_ISteamMusicRemote_BIsCurrentMusicRemote (self : Ptr) (w : World) : Bool × World :=
  (false, w)

/-- Line 179: bool SteamAPI_ISteamMusicRemote_BActivationSuccess(void* self, bool bValue) -/
def SteamAPI_ISteamMusicRemote_BActivationSuccess (self : Ptr) (bValue : Bool) (w : World) : Bool × World :=
  (false, w)

/-- Line 180: bool SteamAPI_ISteamMusicRemote_SetDisplayName(void* self, const char* pchDisplayName) -/
def SteamAPI_ISteamMusicRemote_SetDisplayName (self : Ptr) (pchDisplayName : Ptr) (w : World) : Bool × World :=
  (false, w)

/-- Line 181: bool SteamAPI_ISteamMusicRemote_SetPNGIcon_64x64(void* self, void* pvBuffer, uint32 cbBufferLength) -/
def SteamAPI_ISteamMusicRemote_SetPNGIcon_64x64 (self : Ptr) (pvBuffer : Ptr) (cbBufferLength : Nat) (w : World) : Bool × World :=
  (false, w)

/-- Line 182: bool SteamAPI_ISteamMusicRemote_EnablePlayPrevious(void* self, bool bValue) -/
def SteamAPI_ISteamMusicRemote_EnablePlayPrevious (self : Ptr) (bValue : Bool) (w : World) : Bool × World :=
  (false, w)

/-- Line 183: bool SteamAPI_ISteamMusicRemote_EnablePlayNext(void* self, bool bValue) -/
def SteamAPI_ISteamMusicRemote_EnablePlayNext (self : Ptr) (bValue : Bool) (w : World) : Bool × World :=
  (false, w)

/-- Line 184: bool SteamAPI_ISteamMusicRemote_EnableShuffled(void* self, bool bValue) -/
def SteamAPI_ISteamMusicRemote_EnableShuffled (self : Ptr) (bValue : Bool) (w : World) : Bool × World :=
  (false, w)

/-- Line 185: bool SteamAPI_ISteamMusicRemote_EnableLooped(void* self, bool bValue) -/
def SteamAPI_ISteamMusicRemote_EnableLooped (self : Ptr) (bValue : Bool) (w : World) : Bool × World :=
  (false, w)

/-- Line 186: bool SteamAPI_ISteamMusicRemote_EnableQueue(void* self, bool bValue) -/
def SteamAPI_ISteamMusicRemote_EnableQueue (self : Ptr) (bValue : Bool) (w : World) : Bool × World :=
  (false, w)

/-- Line 187: bool SteamAPI_ISteamMusicRemote_EnablePlaylists(void* self, bool bValue) -/
def SteamAPI_ISteamMusicRemote_EnablePlaylists (self : Ptr) (bValue : Bool) (w : World) : Bool × World :=
  (false, w)

/-- Line 188: bool SteamAPI_ISteamMusicRemote_UpdatePlaybackStatus(void* self, int nStatus) -/
def SteamAPI_ISteamMusicRemote_UpdatePlaybackStatus (self : Ptr) (nStatus : Int) (w : World) : Bool × World :=
  (false, w)

/-- Line 189: bool SteamAPI_ISteamMusicRemote_UpdateShuffled(void* self, bool bValue) -/
def SteamAPI_ISteamMusicRemote_UpdateShuffled (self : Ptr) (bValue : Bool) (w : World) : Bool × World :=
  (false, w)

/-- Line 190: bool SteamAPI_ISteamMusicRemote_UpdateLooped(void* self, bool bValue) -/
def SteamAPI_ISteamMusicRemote_UpdateLooped (self : Ptr) (bValue : Bool) (w : World) : Bool × World :=
  (false, w)

/-- Line 191: bool SteamAPI_ISteamMusicRemote_UpdateVolume(void* self, float flValue) -/
def SteamAPI_ISteamMusicRemote_UpdateVolume (self : Ptr) (flValue : CFloat) (w : World) : Bool × World :=
  (false, w)

/-- Line 192: bool SteamAPI_ISteamMusicRemote_CurrentEntryWillChange(void* self) -/
def SteamAPI_ISteamMusicRemote_CurrentEntryWillChange (self : Ptr) (w : World) : Bool × World :=
  (false, w)

/-- Line 193: bool SteamAPI_ISteamMusicRemote_CurrentEntryIsAvailable(void* self, bool bAvailable) -/
def SteamAPI_ISteamMusicRemote_CurrentEntryIsAvailable (self : Ptr) (bAvailable : Bool) (w : World) : Bool × World :=
  (false, w)

/-- Line 194: bool SteamAPI_ISteamMusicRemote_UpdateCurrentEntryText(void* self, const char* pchText) -/
def SteamAPI_ISteamMusicRemote_UpdateCurrentEntryText (self : Ptr) (pchText : Ptr) (w : World) : Bool × World :=
  (false, w)

/-- Line 195: bool SteamAPI_ISteamMusicRemote_UpdateCurrentEntryElapsedSeconds(void* self, int nValue) -/
def SteamAPI_ISteamMusicRemote_UpdateCurrentEntryElapsedSeconds (self : Ptr) (nValue : Int) (w : World) : Bool × World :=
  (false, w)

/-- Line 196: bool SteamAPI_ISteamMusicRemote_UpdateCurrentEntryCoverArt(void* self, void* pvBuffer, uint32 cbBufferLength) -/
def SteamAPI_ISteamMusicRemote_UpdateCurrentEntryCoverArt (self : Ptr) (pvBuffer : Ptr) (cbBufferLength : Nat) (w : World) : Bool × World :=
  (false, w)

/-- Line 197: bool SteamAPI_ISteamMusicRemote_CurrentEntryDidChange(void* self) -/
def SteamAPI_ISteamMusicRemote_CurrentEntryDidChange (self : Ptr) (w : World) : Bool × World :=
  (false, w)

/-- Line 198: bool SteamAPI_ISteamMusicRemote_QueueWillChange(void* self) -/
def SteamAPI_ISteamMusicRemote_QueueWillChange (self : Ptr) (w : World) : Bool × World :=
  (false, w)

/-- Line 199: bool SteamAPI_ISteamMusicRemote_ResetQueueEntries(void* self) -/
def SteamAPI_ISteamMusicRemote_ResetQueueEntries (self : Ptr) (w : World) : Bool × World :=
  (false, w)

/-- Line 200: bool SteamAPI_ISteamMusicRemote_SetQueueEntry(void* self, int nID, int nPosition, const char* pchEntryText) -/
def SteamAPI_ISteamMusicRemote_SetQueueEntry (self : Ptr) (nID : Int) (nPosition : Int) (pchEntryText : Ptr) (w : World) : Bool × World :=
  (false, w)

/-- Line 201: bool SteamAPI_ISteamMusicRemote_SetCurrentQueueEntry(void* self, int nID) -/
def SteamAPI_ISteamMusicRemote_SetCurrentQueueEntry (self : Ptr) (nID : Int) (w : World) : Bool × World :=
  (false, w)

/-- Line 202: bool SteamAPI_ISteamMusicRemote_QueueDidChange(void* self) -/
def SteamAPI_ISteamMusicRemote_QueueDidChange (self : Ptr) (w : World) : Bool × World :=
  (false, w)

/-- Line 203: bool SteamAPI_ISteamMusicRemote_PlaylistWillChange(void* self) -/
def SteamAPI_ISteamMusicRemote_PlaylistWillChange (self : Ptr) (w : World) : Bool × World :=
  (false, w)

/-- Line 204: bool SteamAPI_ISteamMusicRemote_ResetPlaylistEntries(void* self) -/
def SteamAPI_ISteamMusicRemote_ResetPlaylistEntries (self : Ptr) (w : World) : Bool × World :=
  (false, w)

/-- Line 205: bool SteamAPI_ISteamMusicRemote_SetPlaylistEntry(void* self, int nID, int nPosition, const char* pchEntryText) -/
def SteamAPI_ISteamMusicRemote_SetPlaylistEntry (self : Ptr) (nID : Int) (nPosition : Int) (pchEntryText : Ptr) (w : World) : Bool × World :=
  (false, w)

/-- Line 206: bool SteamAPI_ISteamMusicRemote_SetCurrentPlaylistEntry(void* self, int nID) -/
def SteamAPI_ISteamMusicRemote_SetCurrentPlaylistEntry (self : Ptr) (nID : Int) (w : World) : Bool × World :=
  (false, w)

/-- Line 207: bool SteamAPI_ISteamMusicRemote_PlaylistDidChange(void* self) -/
def SteamAPI_ISteamMusicRemote_PlaylistDidChange (self : Ptr) (w : World) : Bool × World :=
  (false, w)

/-- Line 210: bool SteamAPI_ISteamNetworkingConnectionCustomSignaling_SendSignal(void* self, uint32 hConn, void* info, const void* pMsg, int cbMsg) -/
def SteamAPI_ISteamNetworkingConnectionCustomSignaling_SendSignal (self : Ptr) (hConn : Nat) (info : Ptr) (pMsg : Ptr) (cbMsg : Int) (w : World) : Bool × World :=
  (false, w)

/-- Line 211: void SteamAPI_ISteamNetworkingConnectionCustomSignaling_Release(void* self) -/
def SteamAPI_ISteamNetworkingConnectionCustomSignaling_Release (self : Ptr) (w : World) : Unit × World :=
  ((), w)

/-- Line 212: void* SteamAPI_ISteamNetworkingCustomSignalingRecvContext_OnConnectRequest(void* self, uint32 hConn, void* identityPeer, int nLocalVirtualPort) -/
def SteamAPI_ISteamNetworkingCustomSignalingRecvContext_OnConnectRequest (self : Ptr) (hConn : Nat) (identityPeer : Ptr) (nLocalVirtualPort : Int) (w : World) : Ptr × World :=
  (NULL, w)

/-- Line 213: void SteamAPI_ISteamNetworkingCustomSignalingRecvContext_SendRejectionSignal(void* self, void* identityPeer, const void* pMsg, int cbMsg) -/
def SteamAPI_ISteamNetworkingCustomSignalingRecvContext_SendRejectionSignal (self : Ptr) (identityPeer : Ptr) (pMsg : Ptr) (cbMsg : Int) (w : World) : Unit × World :=
  ((), w)

/-- The value a stub hands back to its caller, tagged with its C return type: void, bool, a
signed integer (int, int32, SteamAPICall_t), an unsigned integer (uint32), a pointer, or a
pointer to a string constant (given by its characters). -/
inductive Ret where
  | void
  | bool (b : Bool)
  | int (i : Int)
  | uint (n : Nat)
  | ptr (p : Ptr)
  | str (s : List Char)
  deriving DecidableEq, Repr

/-- The stub symbols of lines 93 to 213, in source order. -/
inductive Stub where
  | SteamAPI_SteamAppList_v001
  | SteamAPI_SteamGameSearch_v001
  | SteamAPI_SteamMusicRemote_v001
  | SteamAPI_SteamTV_v001
  | SteamAPI_ISteamUserStats_RequestCurrentStats
  | SteamAPI_ISteamFriends_GetUserRestrictions
  | SteamAPI_ISteamFriends_SetPersonaName
  | SteamAPI_ISteamUser_InitiateGameConnection
  | SteamAPI_ISteamUser_TerminateGameConnection
  | SteamAPI_ISteamUtils_GetCSERIPPort
  | SteamAPI_ISteamInput_GetGlyphForActionOrigin
  | SteamAPI_ISteamInput_TriggerHapticPulse
  | SteamAPI_ISteamInput_TriggerRepeatedHapticPulse
  | SteamAPI_ISteamNetworkingSockets_GetQuickConnectionStatus
  | SteamAPI_ISteamNetworkingUtils_GetFirstConfigValue
  | SteamAPI_ISteamClient_GetISteamAppList
  | SteamAPI_ISteamClient_GetISteamGameSearch
  | SteamAPI_ISteamClient_GetISteamMusicRemote
  | SteamAPI_ISteamGameServer_EnableHeartbeats
  | SteamAPI_ISteamGameServer_ForceHeartbeat
  | SteamAPI_ISteamGameServer_SetHeartbeatInterval
  | SteamAPI_ISteamGameServer_SendUserConnectAndAuthenticate
  | SteamAPI_ISteamGameServer_SendUserDisconnect
  | SteamAPI_ISteamAppList_GetNumInstalledApps
  | SteamAPI_ISteamAppList_GetInstalledApps
  | SteamAPI_ISteamAppList_GetAppName
  | SteamAPI_ISteamAppList_GetAppInstallDir
  | SteamAPI_ISteamAppList_GetAppBuildId
  | SteamAPI_ISteamGameSearch_AddGameSearchParams
  | SteamAPI_ISteamGameSearch_SearchForGameWithLobby
  | SteamAPI_ISteamGameSearch_SearchForGameSolo
  | SteamAPI_ISteamGameSearch_AcceptGame
  | SteamAPI_ISteamGameSearch_DeclineGame
  | SteamAPI_ISteamGameSearch_RetrieveConnectionDetails
  | SteamAPI_ISteamGameSearch_EndGameSearch
  | SteamAPI_ISteamGameSearch_SetGameHostParams
  | SteamAPI_ISteamGameSearch_SetConnectionDetails
  | SteamAPI_ISteamGameSearch_RequestPlayersForGame
  | SteamAPI_ISteamGameSearch_HostConfirmGameStart
  | SteamAPI_ISteamGameSearch_CancelRequestPlayersForGame
  | SteamAPI_ISteamGameSearch_SubmitPlayerResult
  | SteamAPI_ISteamGameSearch_EndGame
  | SteamAPI_ISteamTV_IsBroadcasting
  | SteamAPI_ISteamTV_AddBroadcastGameData
  | SteamAPI_ISteamTV_RemoveBroadcastGameData
  | SteamAPI_ISteamTV_AddTimelineMarker
  | SteamAPI_ISteamTV_RemoveTimelineMarker
  | SteamAPI_ISteamTV_AddRegion
  | SteamAPI_ISteamTV_RemoveRegion
  | SteamAPI_ISteamMusicRemote_RegisterSteamMusicRemote
  | SteamAPI_ISteamMusicRemote_DeregisterSteamMusicRemote
  | SteamAPI_ISteamMusicRemote_BIsCurrentMusicRemote
  | SteamAPI_ISteamMusicRemote_BActivationSuccess
  | SteamAPI_ISteamMusicRemote_SetDisplayName
  | SteamAPI_ISteamMusicRemote_SetPNGIcon_64x64
  | SteamAPI_ISteamMusicRemote_EnablePlayPrevious
  | SteamAPI_ISteamMusicRemote_EnablePlayNext
  | SteamAPI_ISteamMusicRemote_EnableShuffled
  | SteamAPI_ISteamMusicRemote_EnableLooped
  | SteamAPI_ISteamMusicRemote_EnableQueue
  | SteamAPI_ISteamMusicRemote_EnablePlaylists
  | SteamAPI_ISteamMusicRemote_UpdatePlaybackStatus
  | SteamAPI_ISteamMusicRemote_UpdateShuffled
  | SteamAPI_ISteamMusicRemote_UpdateLooped
  | SteamAPI_ISteamMusicRemote_UpdateVolume
  | SteamAPI_ISteamMusicRemote_CurrentEntryWillChange
  | SteamAPI_ISteamMusicRemote_CurrentEntryIsAvailable
  | SteamAPI_ISteamMusicRemote_UpdateCurrentEntryText
  | SteamAPI_ISteamMusicRemote_UpdateCurrentEntryElapsedSeconds
  | SteamAPI_ISteamMusicRemote_UpdateCurrentEntryCoverArt
  | SteamAPI_ISteamMusicRemote_CurrentEntryDidChange
  | SteamAPI_ISteamMusicRemote_QueueWillChange
  | SteamAPI_ISteamMusicRemote_ResetQueueEntries
  | SteamAPI_ISteamMusicRemote_SetQueueEntry
  | SteamAPI_ISteamMusicRemote_SetCurrentQueueEntry
  | SteamAPI_ISteamMusicRemote_QueueDidChange
  | SteamAPI_ISteamMusicRemote_PlaylistWillChange
  | SteamAPI_ISteamMusicRemote_ResetPlaylistEntries
  | SteamAPI_ISteamMusicRemote_SetPlaylistEntry
  | SteamAPI_ISteamMusicRemote_SetCurrentPlaylistEntry
  | SteamAPI_ISteamMusicRemote_PlaylistDidChange
  | SteamAPI_ISteamNetworkingConnectionCustomSignaling_SendSignal
  | SteamAPI_ISteamNetworkingConnectionCustomSignaling_Release
  | SteamAPI_ISteamNetworkingCustomSignalingRecvContext_OnConnectRequest
  | SteamAPI_ISteamNetworkingCustomSignalingRecvContext_SendRejectionSignal
  deriving DecidableEq, Repr

/-- The exported name of each stub symbol. -/
def Stub.name : Stub → String
  | .SteamAPI_SteamAppList_v001 => "SteamAPI_SteamAppList_v001"
  | .SteamAPI_SteamGameSearch_v001 => "SteamAPI_SteamGameSearch_v001"
  | .SteamAPI_SteamMusicRemote_v001 => "SteamAPI_SteamMusicRemote_v001"
  | .SteamAPI_SteamTV_v001 => "SteamAPI_SteamTV_v001"
  | .SteamAPI_ISteamUserStats_RequestCurrentStats => "SteamAPI_ISteamUserStats_RequestCurrentStats"
  | .SteamAPI_ISteamFriends_GetUserRestrictions => "SteamAPI_ISteamFriends_GetUserRestrictions"
  | .SteamAPI_ISteamFriends_SetPersonaName => "SteamAPI_ISteamFriends_SetPersonaName"
  | .SteamAPI_ISteamUser_InitiateGameConnection => "SteamAPI_ISteamUser_InitiateGameConnection"
  | .SteamAPI_ISteamUser_TerminateGameConnection => "SteamAPI_ISteamUser_TerminateGameConnection"
  | .SteamAPI_ISteamUtils_GetCSERIPPort => "SteamAPI_ISteamUtils_GetCSERIPPort"
  | .SteamAPI_ISteamInput_GetGlyphForActionOrigin => "SteamAPI_ISteamInput_GetGlyphForActionOrigin"
  | .SteamAPI_ISteamInput_TriggerHapticPulse => "SteamAPI_ISteamInput_TriggerHapticPulse"
  | .SteamAPI_ISteamInput_TriggerRepeatedHapticPulse => "SteamAPI_ISteamInput_TriggerRepeatedHapticPulse"
  | .SteamAPI_ISteamNetworkingSockets_GetQuickConnectionStatus => "SteamAPI_ISteamNetworkingSockets_GetQuickConnectionStatus"
  | .SteamAPI_ISteamNetworkingUtils_GetFirstConfigValue => "SteamAPI_ISteamNetworkingUtils_GetFirstConfigValue"
  | .SteamAPI_ISteamClient_GetISteamAppList => "SteamAPI_ISteamClient_GetISteamAppList"
  | .SteamAPI_ISteamClient_GetISteamGameSearch => "SteamAPI_ISteamClient_GetISteamGameSearch"
  | .SteamAPI_ISteamClient_GetISteamMusicRemote => "SteamAPI_ISteamClient_GetISteamMusicRemote"
  | .SteamAPI_ISteamGameServer_EnableHeartbeats => "SteamAPI_ISteamGameServer_EnableHeartbeats"
  | .SteamAPI_ISteamGameServer_ForceHeartbeat => "SteamAPI_ISteamGameServer_ForceHeartbeat"
  | .SteamAPI_ISteamGameServer_SetHeartbeatInterval => "SteamAPI_ISteamGameServer_SetHeartbeatInterval"
  | .SteamAPI_ISteamGameServer_SendUserConnectAndAuthenticate => "SteamAPI_ISteamGameServer_SendUserConnectAndAuthenticate"
  | .SteamAPI_ISteamGameServer_SendUserDisconnect => "SteamAPI_ISteamGameServer_SendUserDisconnect"
  | .SteamAPI_ISteamAppList_GetNumInstalledApps => "SteamAPI_ISteamAppList_GetNumInstalledApps"
  | .SteamAPI_ISteamAppList_GetInstalledApps => "SteamAPI_ISteamAppList_GetInstalledApps"
  | .SteamAPI_ISteamAppList_GetAppName => "SteamAPI_ISteamAppList_GetAppName"
  | .SteamAPI_ISteamAppList_GetAppInstallDir => "SteamAPI_ISteamAppList_GetAppInstallDir"
  | .SteamAPI_ISteamAppList_GetAppBuildId => "SteamAPI_ISteamAppList_GetAppBuildId"
  | .SteamAPI_ISteamGameSearch_AddGameSearchParams => "SteamAPI_ISteamGameSearch_AddGameSearchParams"
  | .SteamAPI_ISteamGameSearch_SearchForGameWithLobby => "SteamAPI_ISteamGameSearch_SearchForGameWithLobby"
  | .SteamAPI_ISteamGameSearch_SearchForGameSolo => "SteamAPI_ISteamGameSearch_SearchForGameSolo"
  | .SteamAPI_ISteamGameSearch_AcceptGame => "SteamAPI_ISteamGameSearch_AcceptGame"
  | .SteamAPI_ISteamGameSearch_DeclineGame => "SteamAPI_ISteamGameSearch_DeclineGame"
  | .SteamAPI_ISteamGameSearch_RetrieveConnectionDetails => "SteamAPI_ISteamGameSearch_RetrieveConnectionDetails"
  | .SteamAPI_ISteamGameSearch_EndGameSearch => "SteamAPI_ISteamGameSearch_EndGameSearch"
  | .SteamAPI_ISteamGameSearch_SetGameHostParams => "SteamAPI_ISteamGameSearch_SetGameHostParams"
  | .SteamAPI_ISteamGameSearch_SetConnectionDetails => "SteamAPI_ISteamGameSearch_SetConnectionDetails"
  | .SteamAPI_ISteamGameSearch_RequestPlayersForGame => "SteamAPI_ISteamGameSearch_RequestPlayersForGame"
  | .SteamAPI_ISteamGameSearch_HostConfirmGameStart => "SteamAPI_ISteamGameSearch_HostConfirmGameStart"
  | .SteamAPI_ISteamGameSearch_CancelRequestPlayersForGame => "SteamAPI_ISteamGameSearch_CancelRequestPlayersForGame"
  | .SteamAPI_ISteamGameSearch_SubmitPlayerResult => "SteamAPI_ISteamGameSearch_SubmitPlayerResult"
  | .SteamAPI_ISteamGameSearch_EndGame => "SteamAPI_ISteamGameSearch_EndGame"
  | .SteamAPI_ISteamTV_IsBroadcasting => "SteamAPI_ISteamTV_IsBroadcasting"
  | .SteamAPI_ISteamTV_AddBroadcastGameData => "SteamAPI_ISteamTV_AddBroadcastGameData"
  | .SteamAPI_ISteamTV_RemoveBroadcastGameData => "SteamAPI_ISteamTV_RemoveBroadcastGameData"
  | .SteamAPI_ISteamTV_AddTimelineMarker => "SteamAPI_ISteamTV_AddTimelineMarker"
  | .SteamAPI_ISteamTV_RemoveTimelineMarker => "SteamAPI_ISteamTV_RemoveTimelineMarker"
  | .SteamAPI_ISteamTV_AddRegion => "SteamAPI_ISteamTV_AddRegion"
  | .SteamAPI_ISteamTV_RemoveRegion => "SteamAPI_ISteamTV_RemoveRegion"
  | .SteamAPI_ISteamMusicRemote_RegisterSteamMusicRemote => "SteamAPI_ISteamMusicRemote_RegisterSteamMusicRemote"
  | .SteamAPI_ISteamMusicRemote_DeregisterSteamMusicRemote => "SteamAPI_ISteamMusicRemote_DeregisterSteamMusicRemote"
  | .SteamAPI_ISteamMusicRemote_BIsCurrentMusicRemote => "SteamAPI_ISteamMusicRemote_BIsCurrentMusicRemote"
  | .SteamAPI_ISteamMusicRemote_BActivationSuccess => "SteamAPI_ISteamMusicRemote_BActivationSuccess"
  | .SteamAPI_ISteamMusicRemote_SetDisplayName => "SteamAPI_ISteamMusicRemote_SetDisplayName"
  | .SteamAPI_ISteamMusicRemote_SetPNGIcon_64x64 => "SteamAPI_ISteamMusicRemote_SetPNGIcon_64x64"
  | .SteamAPI_ISteamMusicRemote_EnablePlayPrevious => "SteamAPI_ISteamMusicRemote_EnablePlayPrevious"
  | .SteamAPI_ISteamMusicRemote_EnablePlayNext => "SteamAPI_ISteamMusicRemote_EnablePlayNext"
  | .SteamAPI_ISteamMusicRemote_EnableShuffled => "SteamAPI_ISteamMusicRemote_EnableShuffled"
  | .SteamAPI_ISteamMusicRemote_EnableLooped => "SteamAPI_ISteamMusicRemote_EnableLooped"
  | .SteamAPI_ISteamMusicRemote_EnableQueue => "SteamAPI_ISteamMusicRemote_EnableQueue"
  | .SteamAPI_ISteamMusicRemote_EnablePlaylists => "SteamAPI_ISteamMusicRemote_EnablePlaylists"
  | .SteamAPI_ISteamMusicRemote_UpdatePlaybackStatus => "SteamAPI_ISteamMusicRemote_UpdatePlaybackStatus"
  | .SteamAPI_ISteamMusicRemote_UpdateShuffled => "SteamAPI_ISteamMusicRemote_UpdateShuffled"
  | .SteamAPI_ISteamMusicRemote_UpdateLooped => "SteamAPI_ISteamMusicRemote_UpdateLooped"
  | .SteamAPI_ISteamMusicRemote_UpdateVolume => "SteamAPI_ISteamMusicRemote_UpdateVolume"
  | .SteamAPI_ISteamMusicRemote_CurrentEntryWillChange => "SteamAPI_ISteamMusicRemote_CurrentEntryWillChange"
  | .SteamAPI_ISteamMusicRemote_CurrentEntryIsAvailable => "SteamAPI_ISteamMusicRemote_CurrentEntryIsAvailable"
  | .SteamAPI_ISteamMusicRemote_UpdateCurrentEntryText => "SteamAPI_ISteamMusicRemote_UpdateCurrentEntryText"
  | .SteamAPI_ISteamMusicRemote_UpdateCurrentEntryElapsedSeconds => "SteamAPI_ISteamMusicRemote_UpdateCurrentEntryElapsedSeconds"
  | .SteamAPI_ISteamMusicRemote_UpdateCurrentEntryCoverArt => "SteamAPI_ISteamMusicRemote_UpdateCurrentEntryCoverArt"
  | .SteamAPI_ISteamMusicRemote_CurrentEntryDidChange => "SteamAPI_ISteamMusicRemote_CurrentEntryDidChange"
  | .SteamAPI_ISteamMusicRemote_QueueWillChange => "SteamAPI_ISteamMusicRemote_QueueWillChange"
  | .SteamAPI_ISteamMusicRemote_ResetQueueEntries => "SteamAPI_ISteamMusicRemote_ResetQueueEntries"
  | .SteamAPI_ISteamMusicRemote_SetQueueEntry => "SteamAPI_ISteamMusicRemote_SetQueueEntry"
  | .SteamAPI_ISteamMusicRemote_SetCurrentQueueEntry => "SteamAPI_ISteamMusicRemote_SetCurrentQueueEntry"
  | .SteamAPI_ISteamMusicRemote_QueueDidChange => "SteamAPI_ISteamMusicRemote_QueueDidChange"
  | .SteamAPI_ISteamMusicRemote_PlaylistWillChange => "SteamAPI_ISteamMusicRemote_PlaylistWillChange"
  | .SteamAPI_ISteamMusicRemote_ResetPlaylistEntries => "SteamAPI_ISteamMusicRemote_ResetPlaylistEntries"
  | .SteamAPI_ISteamMusicRemote_SetPlaylistEntry => "SteamAPI_ISteamMusicRemote_SetPlaylistEntry"
  | .SteamAPI_ISteamMusicRemote_SetCurrentPlaylistEntry => "SteamAPI_ISteamMusicRemote_SetCurrentPlaylistEntry"
  | .SteamAPI_ISteamMusicRemote_PlaylistDidChange => "SteamAPI_ISteamMusicRemote_PlaylistDidChange"
  | .SteamAPI_ISteamNetworkingConnectionCustomSignaling_SendSignal => "SteamAPI_ISteamNetworkingConnectionCustomSignaling_SendSignal"
  | .SteamAPI_ISteamNetworkingConnectionCustomSignaling_Release => "SteamAPI_ISteamNetworkingConnectionCustomSignaling_Release"
  | .SteamAPI_ISteamNetworkingCustomSignalingRecvContext_OnConnectRequest => "SteamAPI_ISteamNetworkingCustomSignalingRecvContext_OnConnectRequest"
  | .SteamAPI_ISteamNetworkingCustomSignalingRecvContext_SendRejectionSignal => "SteamAPI_ISteamNetworkingCustomSignalingRecvContext_SendRejectionSignal"

/-- All stub symbols in source order: the four accessors of removed interfaces (lines 93 to 96)
followed by the stubs for removed flat API functions (lines 105 to 213). -/
def allStubs : List Stub :=
  [
   Stub.SteamAPI_SteamAppList_v001,
   Stub.SteamAPI_SteamGameSearch_v001,
   Stub.SteamAPI_SteamMusicRemote_v001,
   Stub.SteamAPI_SteamTV_v001,
   Stub.SteamAPI_ISteamUserStats_RequestCurrentStats,
   Stub.SteamAPI_ISteamFriends_GetUserRestrictions,
   Stub.SteamAPI_ISteamFriends_SetPersonaName,
   Stub.SteamAPI_ISteamUser_InitiateGameConnection,
   Stub.SteamAPI_ISteamUser_TerminateGameConnection,
   Stub.SteamAPI_ISteamUtils_GetCSERIPPort,
   Stub.SteamAPI_ISteamInput_GetGlyphForActionOrigin,
   Stub.SteamAPI_ISteamInput_TriggerHapticPulse,
   Stub.SteamAPI_ISteamInput_TriggerRepeatedHapticPulse,
   Stub.SteamAPI_ISteamNetworkingSockets_GetQuickConnectionStatus,
   Stub.SteamAPI_ISteamNetworkingUtils_GetFirstConfigValue,
   Stub.SteamAPI_ISteamClient_GetISteamAppList,
   Stub.SteamAPI_ISteamClient_GetISteamGameSearch,
   Stub.SteamAPI_ISteamClient_GetISteamMusicRemote,
   Stub.SteamAPI_ISteamGameServer_EnableHeartbeats,
   Stub.SteamAPI_ISteamGameServer_ForceHeartbeat,
   Stub.SteamAPI_ISteamGameServer_SetHeartbeatInterval,
   Stub.SteamAPI_ISteamGameServer_SendUserConnectAndAuthenticate,
   Stub.SteamAPI_ISteamGameServer_SendUserDisconnect,
   Stub.SteamAPI_ISteamAppList_GetNumInstalledApps,
   Stub.SteamAPI_ISteamAppList_GetInstalledApps,
   Stub.SteamAPI_ISteamAppList_GetAppName,
   Stub.SteamAPI_ISteamAppList_GetAppInstallDir,
   Stub.SteamAPI_ISteamAppList_GetAppBuildId,
   Stub.SteamAPI_ISteamGameSearch_AddGameSearchParams,
   Stub.SteamAPI_ISteamGameSearch_SearchForGameWithLobby,
   Stub.SteamAPI_ISteamGameSearch_SearchForGameSolo,
   Stub.SteamAPI_ISteamGameSearch_AcceptGame,
   Stub.SteamAPI_ISteamGameSearch_DeclineGame,
   Stub.SteamAPI_ISteamGameSearch_RetrieveConnectionDetails,
   Stub.SteamAPI_ISteamGameSearch_EndGameSearch,
   Stub.SteamAPI_ISteamGameSearch_SetGameHostParams,
   Stub.SteamAPI_ISteamGameSearch_SetConnectionDetails,
   Stub.SteamAPI_ISteamGameSearch_RequestPlayersForGame,
   Stub.SteamAPI_ISteamGameSearch_HostConfirmGameStart,
   Stub.SteamAPI_ISteamGameSearch_CancelRequestPlayersForGame,
   Stub.SteamAPI_ISteamGameSearch_SubmitPlayerResult,
   Stub.SteamAPI_ISteamGameSearch_EndGame,
   Stub.SteamAPI_ISteamTV_IsBroadcasting,
   Stub.SteamAPI_ISteamTV_AddBroadcastGameData,
   Stub.SteamAPI_ISteamTV_RemoveBroadcastGameData,
   Stub.SteamAPI_ISteamTV_AddTimelineMarker,
   Stub.SteamAPI_ISteamTV_RemoveTimelineMarker,
   Stub.SteamAPI_ISteamTV_AddRegion,
   Stub.SteamAPI_ISteamTV_RemoveRegion,
   Stub.SteamAPI_ISteamMusicRemote_RegisterSteamMusicRemote,
   Stub.SteamAPI_ISteamMusicRemote_DeregisterSteamMusicRemote,
   Stub.SteamAPI_ISteamMusicRemote_BIsCurrentMusicRemote,
   Stub.SteamAPI_ISteamMusicRemote_BActivationSuccess,
   Stub.SteamAPI_ISteamMusicRemote_SetDisplayName,
   Stub.SteamAPI_ISteamMusicRemote_SetPNGIcon_64x64,
   Stub.SteamAPI_ISteamMusicRemote_EnablePlayPrevious,
   Stub.SteamAPI_ISteamMusicRemote_EnablePlayNext,
   Stub.SteamAPI_ISteamMusicRemote_EnableShuffled,
   Stub.SteamAPI_ISteamMusicRemote_EnableLooped,
   Stub.SteamAPI_ISteamMusicRemote_EnableQueue,
   Stub.SteamAPI_ISteamMusicRemote_EnablePlaylists,
   Stub.SteamAPI_ISteamMusicRemote_UpdatePlaybackStatus,
   Stub.SteamAPI_ISteamMusicRemote_UpdateShuffled,
   Stub.SteamAPI_ISteamMusicRemote_UpdateLooped,
   Stub.SteamAPI_ISteamMusicRemote_UpdateVolume,
   Stub.SteamAPI_ISteamMusicRemote_CurrentEntryWillChange,
   Stub.SteamAPI_ISteamMusicRemote_CurrentEntryIsAvailable,
   Stub.SteamAPI_ISteamMusicRemote_UpdateCurrentEntryText,
   Stub.SteamAPI_ISteamMusicRemote_UpdateCurrentEntryElapsedSeconds,
   Stub.SteamAPI_ISteamMusicRemote_UpdateCurrentEntryCoverArt,
   Stub.SteamAPI_ISteamMusicRemote_CurrentEntryDidChange,
   Stub.SteamAPI_ISteamMusicRemote_QueueWillChange,
   Stub.SteamAPI_ISteamMusicRemote_ResetQueueEntries,
   Stub.SteamAPI_ISteamMusicRemote_SetQueueEntry,
   Stub.SteamAPI_ISteamMusicRemote_SetCurrentQueueEntry,
   Stub.SteamAPI_ISteamMusicRemote_QueueDidChange,
   Stub.SteamAPI_ISteamMusicRemote_PlaylistWillChange,
   Stub.SteamAPI_ISteamMusicRemote_ResetPlaylistEntries,
   Stub.SteamAPI_ISteamMusicRemote_SetPlaylistEntry,
   Stub.SteamAPI_ISteamMusicRemote_SetCurrentPlaylistEntry,
   Stub.SteamAPI_ISteamMusicRemote_PlaylistDidChange,
   Stub.SteamAPI_ISteamNetworkingConnectionCustomSignaling_SendSignal,
   Stub.SteamAPI_ISteamNetworkingConnectionCustomSignaling_Release,
   Stub.SteamAPI_ISteamNetworkingCustomSignalingRecvContext_OnConnectRequest,
   Stub.SteamAPI_ISteamNetworkingCustomSignalingRecvContext_SendRejectionSignal]

/-- The stubs of the section for removed flat API functions, lines 105 to 213. -/
def removedFlatStubs : List Stub := allStubs.drop 4

/-- A call of a stub: the symbol together with the argument tuple of its C signature. -/
inductive StubCall where
  | SteamAPI_SteamAppList_v001
  | SteamAPI_SteamGameSearch_v001
  | SteamAPI_SteamMusicRemote_v001
  | SteamAPI_SteamTV_v001
  | SteamAPI_ISteamUserStats_RequestCurrentStats (self : Ptr)
  | SteamAPI_ISteamFriends_GetUserRestrictions (self : Ptr)
  | SteamAPI_ISteamFriends_SetPersonaName (self : Ptr) (name : Ptr)
  | SteamAPI_ISteamUser_InitiateGameConnection (self : Ptr) (pAuthBlob : Ptr) (cbMaxAuthBlob : Int) (steamIDGameServer : Nat) (unIPServer : Nat) (usPortServer : Nat) (bSecure : Bool)
  | SteamAPI_ISteamUser_TerminateGameConnection (self : Ptr) (unIPServer : Nat) (usPortServer : Nat)
  | SteamAPI_ISteamUtils_GetCSERIPPort (self : Ptr) (unIP : Ptr) (usPort : Ptr)
  | SteamAPI_ISteamInput_GetGlyphForActionOrigin (self : Ptr) (eOrigin : Int)
  | SteamAPI_ISteamInput_TriggerHapticPulse (self : Ptr) (inputHandle : Nat) (eTargetPad : Int) (usDurationMicroSec : Nat)
  | SteamAPI_ISteamInput_TriggerRepeatedHapticPulse (self : Ptr) (inputHandle : Nat) (eTargetPad : Int) (usDurationMicroSec : Nat) (usOffMicroSec : Nat) (unRepeat : Nat) (nFlags : Nat)
  | SteamAPI_ISteamNetworkingSockets_GetQuickConnectionStatus (self : Ptr) (hConn : Nat) (pStats : Ptr)
  | SteamAPI_ISteamNetworkingUtils_GetFirstConfigValue (self : Ptr)
  | SteamAPI_ISteamClient_GetISteamAppList (self : Ptr) (hSteamUser : Int) (hSteamPipe : Int) (pchVersion : Ptr)
  | SteamAPI_ISteamClient_GetISteamGameSearch (self : Ptr) (hSteamUser : Int) (hSteamPipe : Int) (pchVersion : Ptr)
  | SteamAPI_ISteamClient_GetISteamMusicRemote (self : Ptr) (hSteamUser : Int) (hSteamPipe : Int) (pchVersion : Ptr)
  | SteamAPI_ISteamGameServer_EnableHeartbeats (self : Ptr) (bActive : Bool)
  | SteamAPI_ISteamGameServer_ForceHeartbeat (self : Ptr)
  | SteamAPI_ISteamGameServer_SetHeartbeatInterval (self : Ptr) (iHeartbeatInterval : Int)
  | SteamAPI_ISteamGameServer_SendUserConnectAndAuthenticate (self : Ptr) (unIPClient : Nat) (pvAuthBlob : Ptr) (cubAuthBlobSize : Nat) (pSteamIDUser : Ptr)
  | SteamAPI_ISteamGameServer_SendUserDisconnect (self : Ptr) (steamIDUser : Nat)
  | SteamAPI_ISteamAppList_GetNumInstalledApps (self : Ptr)
  | SteamAPI_ISteamAppList_GetInstalledApps (self : Ptr) (pvecAppID : Ptr) (unMaxAppIDs : Nat)
  | SteamAPI_ISteamAppList_GetAppName (self : Ptr) (nAppID : Nat) (pchName : Ptr) (cchNameMax : Int)
  | SteamAPI_ISteamAppList_GetAppInstallDir (self : Ptr) (nAppID : Nat) (pchDirectory : Ptr) (cchNameMax : Int)
  | SteamAPI_ISteamAppList_GetAppBuildId (self : Ptr) (nAppID : Nat)
  | SteamAPI_ISteamGameSearch_AddGameSearchParams (self : Ptr) (key : Ptr) (val : Ptr)
  | SteamAPI_ISteamGameSearch_SearchForGameWithLobby (self : Ptr) (steamIDLobby : Nat) (nPlayerMin : Int) (nPlayerMax : Int)
  | SteamAPI_ISteamGameSearch_SearchForGameSolo (self : Ptr) (nPlayerMin : Int) (nPlayerMax : Int)
  | SteamAPI_ISteamGameSearch_AcceptGame (self : Ptr)
  | SteamAPI_ISteamGameSearch_DeclineGame (self : Ptr)
  | SteamAPI_ISteamGameSearch_RetrieveConnectionDetails (self : Ptr) (steamIDHost : Nat) (pchConnectionDetails : Ptr) (cubConnectionDetails : Int)
  | SteamAPI_ISteamGameSearch_EndGameSearch (self : Ptr)
  | SteamAPI_ISteamGameSearch_SetGameHostParams (self : Ptr) (key : Ptr) (val : Ptr)
  | SteamAPI_ISteamGameSearch_SetConnectionDetails (self : Ptr) (pchConnectionDetails : Ptr) (cubConnectionDetails : Int)
  | SteamAPI_ISteamGameSearch_RequestPlayersForGame (self : Ptr) (nPlayerMin : Int) (nPlayerMax : Int) (nMaxTeamSize : Int)
  | SteamAPI_ISteamGameSearch_HostConfirmGameStart (self : Ptr) (ulUniqueGameID : Nat)
  | SteamAPI_ISteamGameSearch_CancelRequestPlayersForGame (self : Ptr)
  | SteamAPI_ISteamGameSearch_SubmitPlayerResult (self : Ptr) (ulUniqueGameID : Nat) (steamIDPlayer : Nat) (EPlayerResult : Int)
  | SteamAPI_ISteamGameSearch_EndGame (self : Ptr) (ulUniqueGameID : Nat)
  | SteamAPI_ISteamTV_IsBroadcasting (self : Ptr) (pnNumViewers : Ptr)
  | SteamAPI_ISteamTV_AddBroadcastGameData (self : Ptr) (pchKey : Ptr) (pchValue : Ptr)
  | SteamAPI_ISteamTV_RemoveBroadcastGameData (self : Ptr) (pchKey : Ptr)
  | SteamAPI_ISteamTV_AddTimelineMarker (self : Ptr) (pchTemplateName : Ptr) (bPersistent : Bool) (nColorR : Nat) (nColorG : Nat) (nColorB : Nat)
  | SteamAPI_ISteamTV_RemoveTimelineMarker (self : Ptr)
  | SteamAPI_ISteamTV_AddRegion (self : Ptr) (pchElementName : Ptr) (pchTimelineDataDescription : Ptr) (rSrcPosition : Ptr) (unSrcDimension : Nat)
  | SteamAPI_ISteamTV_RemoveRegion (self : Ptr) (unRegionHandle : Nat)
  | SteamAPI_ISteamMusicRemote_RegisterSteamMusicRemote (self : Ptr) (pchName : Ptr)
  | SteamAPI_ISteamMusicRemote_DeregisterSteamMusicRemote (self : Ptr)
  | SteamAPI_ISteamMusicRemote_BIsCurrentMusicRemote (self : Ptr)
  | SteamAPI_ISteamMusicRemote_BActivationSuccess (self : Ptr) (bValue : Bool)
  | SteamAPI_ISteamMusicRemote_SetDisplayName (self : Ptr) (pchDisplayName : Ptr)
  | SteamAPI_ISteamMusicRemote_SetPNGIcon_64x64 (self : Ptr) (pvBuffer : Ptr) (cbBufferLength : Nat)
  | SteamAPI_ISteamMusicRemote_EnablePlayPrevious (self : Ptr) (bValue : Bool)
  | SteamAPI_ISteamMusicRemote_EnablePlayNext (self : Ptr) (bValue : Bool)
  | SteamAPI_ISteamMusicRemote_EnableShuffled (self : Ptr) (bValue : Bool)
  | SteamAPI_ISteamMusicRemote_EnableLooped (self : Ptr) (bValue : Bool)
  | SteamAPI_ISteamMusicRemote_EnableQueue (self : Ptr) (bValue : Bool)
  | SteamAPI_ISteamMusicRemote_EnablePlaylists (self : Ptr) (bValue : Bool)
  | SteamAPI_ISteamMusicRemote_UpdatePlaybackStatus (self : Ptr) (nStatus : Int)
  | SteamAPI_ISteamMusicRemote_UpdateShuffled (self : Ptr) (bValue : Bool)
  | SteamAPI_ISteamMusicRemote_UpdateLooped (self : Ptr) (bValue : Bool)
  | SteamAPI_ISteamMusicRemote_UpdateVolume (self : Ptr) (flValue : CFloat)
  | SteamAPI_ISteamMusicRemote_CurrentEntryWillChange (self : Ptr)
  | SteamAPI_ISteamMusicRemote_CurrentEntryIsAvailable (self : Ptr) (bAvailable : Bool)
  | SteamAPI_ISteamMusicRemote_UpdateCurrentEntryText (self : Ptr) (pchText : Ptr)
  | SteamAPI_ISteamMusicRemote_UpdateCurrentEntryElapsedSeconds (self : Ptr) (nValue : Int)
  | SteamAPI_ISteamMusicRemote_UpdateCurrentEntryCoverArt (self : Ptr) (pvBuffer : Ptr) (cbBufferLength : Nat)
  | SteamAPI_ISteamMusicRemote_CurrentEntryDidChange (self : Ptr)
  | SteamAPI_ISteamMusicRemote_QueueWillChange (self : Ptr)
  | SteamAPI_ISteamMusicRemote_ResetQueueEntries (self : Ptr)
  | SteamAPI_ISteamMusicRemote_SetQueueEntry (self : Ptr) (nID : Int) (nPosition : Int) (pchEntryText : Ptr)
  | SteamAPI_ISteamMusicRemote_SetCurrentQueueEntry (self : Ptr) (nID : Int)
  | SteamAPI_ISteamMusicRemote_QueueDidChange (self : Ptr)
  | SteamAPI_ISteamMusicRemote_PlaylistWillChange (self : Ptr)
  | SteamAPI_ISteamMusicRemote_ResetPlaylistEntries (self : Ptr)
  | SteamAPI_ISteamMusicRemote_SetPlaylistEntry (self : Ptr) (nID : Int) (nPosition : Int) (pchEntryText : Ptr)
  | SteamAPI_ISteamMusicRemote_SetCurrentPlaylistEntry (self : Ptr) (nID : Int)
  | SteamAPI_ISteamMusicRemote_PlaylistDidChange (self : Ptr)
  | SteamAPI_ISteamNetworkingConnectionCustomSignaling_SendSignal (self : Ptr) (hConn : Nat) (info : Ptr) (pMsg : Ptr) (cbMsg : Int)
  | SteamAPI_ISteamNetworkingConnectionCustomSignaling_Release (self : Ptr)
  | SteamAPI_ISteamNetworkingCustomSignalingRecvContext_OnConnectRequest (self : Ptr) (hConn : Nat) (identityPeer : Ptr) (nLocalVirtualPort : Int)
  | SteamAPI_ISteamNetworkingCustomSignalingRecvContext_SendRejectionSignal (self : Ptr) (identityPeer : Ptr) (pMsg : Ptr) (cbMsg : Int)

/-- The symbol a call is made to. -/
def StubCall.stub : StubCall → Stub
  | .SteamAPI_SteamAppList_v001 => .SteamAPI_SteamAppList_v001
  | .SteamAPI_SteamGameSearch_v001 => .SteamAPI_SteamGameSearch_v001
  | .SteamAPI_SteamMusicRemote_v001 => .SteamAPI_SteamMusicRemote_v001
  | .SteamAPI_SteamTV_v001 => .SteamAPI_SteamTV_v001
  | .SteamAPI_ISteamUserStats_RequestCurrentStats _ => .SteamAPI_ISteamUserStats_RequestCurrentStats
  | .SteamAPI_ISteamFriends_GetUserRestrictions _ => .SteamAPI_ISteamFriends_GetUserRestrictions
  | .SteamAPI_ISteamFriends_SetPersonaName _ _ => .SteamAPI_ISteamFriends_SetPersonaName
  | .SteamAPI_ISteamUser_InitiateGameConnection _ _ _ _ _ _ _ => .SteamAPI_ISteamUser_InitiateGameConnection
  | .SteamAPI_ISteamUser_TerminateGameConnection _ _ _ => .SteamAPI_ISteamUser_TerminateGameConnection
  | .SteamAPI_ISteamUtils_GetCSERIPPort _ _ _ => .SteamAPI_ISteamUtils_GetCSERIPPort
  | .SteamAPI_ISteamInput_GetGlyphForActionOrigin _ _ => .SteamAPI_ISteamInput_GetGlyphForActionOrigin
  | .SteamAPI_ISteamInput_TriggerHapticPulse _ _ _ _ => .SteamAPI_ISteamInput_TriggerHapticPulse
  | .SteamAPI_ISteamInput_TriggerRepeatedHapticPulse _ _ _ _ _ _ _ => .SteamAPI_ISteamInput_TriggerRepeatedHapticPulse
  | .SteamAPI_ISteamNetworkingSockets_GetQuickConnectionStatus _ _ _ => .SteamAPI_ISteamNetworkingSockets_GetQuickConnectionStatus
  | .SteamAPI_ISteamNetworkingUtils_GetFirstConfigValue _ => .SteamAPI_ISteamNetworkingUtils_GetFirstConfigValue
  | .SteamAPI_ISteamClient_GetISteamAppList _ _ _ _ => .SteamAPI_ISteamClient_GetISteamAppList
  | .SteamAPI_ISteamClient_GetISteamGameSearch _ _ _ _ => .SteamAPI_ISteamClient_GetISteamGameSearch
  | .SteamAPI_ISteamClient_GetISteamMusicRemote _ _ _ _ => .SteamAPI_ISteamClient_GetISteamMusicRemote
  | .SteamAPI_ISteamGameServer_EnableHeartbeats _ _ => .SteamAPI_ISteamGameServer_EnableHeartbeats
  | .SteamAPI_ISteamGameServer_ForceHeartbeat _ => .SteamAPI_ISteamGameServer_ForceHeartbeat
  | .SteamAPI_ISteamGameServer_SetHeartbeatInterval _ _ => .SteamAPI_ISteamGameServer_SetHeartbeatInterval
  | .SteamAPI_ISteamGameServer_SendUserConnectAndAuthenticate _ _ _ _ _ => .SteamAPI_ISteamGameServer_SendUserConnectAndAuthenticate
  | .SteamAPI_ISteamGameServer_SendUserDisconnect _ _ => .SteamAPI_ISteamGameServer_SendUserDisconnect
  | .SteamAPI_ISteamAppList_GetNumInstalledApps _ => .SteamAPI_ISteamAppList_GetNumInstalledApps
  | .SteamAPI_ISteamAppList_GetInstalledApps _ _ _ => .SteamAPI_ISteamAppList_GetInstalledApps
  | .SteamAPI_ISteamAppList_GetAppName _ _ _ _ => .SteamAPI_ISteamAppList_GetAppName
  | .SteamAPI_ISteamAppList_GetAppInstallDir _ _ _ _ => .SteamAPI_ISteamAppList_GetAppInstallDir
  | .SteamAPI_ISteamAppList_GetAppBuildId _ _ => .SteamAPI_ISteamAppList_GetAppBuildId
  | .SteamAPI_ISteamGameSearch_AddGameSearchParams _ _ _ => .SteamAPI_ISteamGameSearch_AddGameSearchParams
  | .SteamAPI_ISteamGameSearch_SearchForGameWithLobby _ _ _ _ => .SteamAPI_ISteamGameSearch_SearchForGameWithLobby
  | .SteamAPI_ISteamGameSearch_SearchForGameSolo _ _ _ => .SteamAPI_ISteamGameSearch_SearchForGameSolo
  | .SteamAPI_ISteamGameSearch_AcceptGame _ => .SteamAPI_ISteamGameSearch_AcceptGame
  | .SteamAPI_ISteamGameSearch_DeclineGame _ => .SteamAPI_ISteamGameSearch_DeclineGame
  | .SteamAPI_ISteamGameSearch_RetrieveConnectionDetails _ _ _ _ => .SteamAPI_ISteamGameSearch_RetrieveConnectionDetails
  | .SteamAPI_ISteamGameSearch_EndGameSearch _ => .SteamAPI_ISteamGameSearch_EndGameSearch
  | .SteamAPI_ISteamGameSearch_SetGameHostParams _ _ _ => .SteamAPI_ISteamGameSearch_SetGameHostParams
  | .SteamAPI_ISteamGameSearch_SetConnectionDetails _ _ _ => .SteamAPI_ISteamGameSearch_SetConnectionDetails
  | .SteamAPI_ISteamGameSearch_RequestPlayersForGame _ _ _ _ => .SteamAPI_ISteamGameSearch_RequestPlayersForGame
  | .SteamAPI_ISteamGameSearch_HostConfirmGameStart _ _ => .SteamAPI_ISteamGameSearch_HostConfirmGameStart
  | .SteamAPI_ISteamGameSearch_CancelRequestPlayersForGame _ => .SteamAPI_ISteamGameSearch_CancelRequestPlayersForGame
  | .SteamAPI_ISteamGameSearch_SubmitPlayerResult _ _ _ _ => .SteamAPI_ISteamGameSearch_SubmitPlayerResult
  | .SteamAPI_ISteamGameSearch_EndGame _ _ => .SteamAPI_ISteamGameSearch_EndGame
  | .SteamAPI_ISteamTV_IsBroadcasting _ _ => .SteamAPI_ISteamTV_IsBroadcasting
  | .SteamAPI_ISteamTV_AddBroadcastGameData _ _ _ => .SteamAPI_ISteamTV_AddBroadcastGameData
  | .SteamAPI_ISteamTV_RemoveBroadcastGameData _ _ => .SteamAPI_ISteamTV_RemoveBroadcastGameData
  | .SteamAPI_ISteamTV_AddTimelineMarker _ _ _ _ _ _ => .SteamAPI_ISteamTV_AddTimelineMarker
  | .SteamAPI_ISteamTV_RemoveTimelineMarker _ => .SteamAPI_ISteamTV_RemoveTimelineMarker
  | .SteamAPI_ISteamTV_AddRegion _ _ _ _ _ => .SteamAPI_ISteamTV_AddRegion
  | .SteamAPI_ISteamTV_RemoveRegion _ _ => .SteamAPI_ISteamTV_RemoveRegion
  | .SteamAPI_ISteamMusicRemote_RegisterSteamMusicRemote _ _ => .SteamAPI_ISteamMusicRemote_RegisterSteamMusicRemote
  | .SteamAPI_ISteamMusicRemote_DeregisterSteamMusicRemote _ => .SteamAPI_ISteamMusicRemote_DeregisterSteamMusicRemote
  | .SteamAPI_ISteamMusicRemote_BIsCurrentMusicRemote _ => .SteamAPI_ISteamMusicRemote_BIsCurrentMusicRemote
  | .SteamAPI_ISteamMusicRemote_BActivationSuccess _ _ => .SteamAPI_ISteamMusicRemote_BActivationSuccess
  | .SteamAPI_ISteamMusicRemote_SetDisplayName _ _ => .SteamAPI_ISteamMusicRemote_SetDisplayName
  | .SteamAPI_ISteamMusicRemote_SetPNGIcon_64x64 _ _ _ => .SteamAPI_ISteamMusicRemote_SetPNGIcon_64x64
  | .SteamAPI_ISteamMusicRemote_EnablePlayPrevious _ _ => .SteamAPI_ISteamMusicRemote_EnablePlayPrevious
  | .SteamAPI_ISteamMusicRemote_EnablePlayNext _ _ => .SteamAPI_ISteamMusicRemote_EnablePlayNext
  | .SteamAPI_ISteamMusicRemote_EnableShuffled _ _ => .SteamAPI_ISteamMusicRemote_EnableShuffled
  | .SteamAPI_ISteamMusicRemote_EnableLooped _ _ => .SteamAPI_ISteamMusicRemote_EnableLooped
  | .SteamAPI_ISteamMusicRemote_EnableQueue _ _ => .SteamAPI_ISteamMusicRemote_EnableQueue
  | .SteamAPI_ISteamMusicRemote_EnablePlaylists _ _ => .SteamAPI_ISteamMusicRemote_EnablePlaylists
  | .SteamAPI_ISteamMusicRemote_UpdatePlaybackStatus _ _ => .SteamAPI_ISteamMusicRemote_UpdatePlaybackStatus
  | .SteamAPI_ISteamMusicRemote_UpdateShuffled _ _ => .SteamAPI_ISteamMusicRemote_UpdateShuffled
  | .SteamAPI_ISteamMusicRemote_UpdateLooped _ _ => .SteamAPI_ISteamMusicRemote_UpdateLooped
  | .SteamAPI_ISteamMusicRemote_UpdateVolume _ _ => .SteamAPI_ISteamMusicRemote_UpdateVolume
  | .SteamAPI_ISteamMusicRemote_CurrentEntryWillChange _ => .SteamAPI_ISteamMusicRemote_CurrentEntryWillChange
  | .SteamAPI_ISteamMusicRemote_CurrentEntryIsAvailable _ _ => .SteamAPI_ISteamMusicRemote_CurrentEntryIsAvailable
  | .SteamAPI_ISteamMusicRemote_UpdateCurrentEntryText _ _ => .SteamAPI_ISteamMusicRemote_UpdateCurrentEntryText
  | .SteamAPI_ISteamMusicRemote_UpdateCurrentEntryElapsedSeconds _ _ => .SteamAPI_ISteamMusicRemote_UpdateCurrentEntryElapsedSeconds
  | .SteamAPI_ISteamMusicRemote_UpdateCurrentEntryCoverArt _ _ _ => .SteamAPI_ISteamMusicRemote_UpdateCurrentEntryCoverArt
  | .SteamAPI_ISteamMusicRemote_CurrentEntryDidChange _ => .SteamAPI_ISteamMusicRemote_CurrentEntryDidChange
  | .SteamAPI_ISteamMusicRemote_QueueWillChange _ => .SteamAPI_ISteamMusicRemote_QueueWillChange
  | .SteamAPI_ISteamMusicRemote_ResetQueueEntries _ => .SteamAPI_ISteamMusicRemote_ResetQueueEntries
  | .SteamAPI_ISteamMusicRemote_SetQueueEntry _ _ _ _ => .SteamAPI_ISteamMusicRemote_SetQueueEntry
  | .SteamAPI_ISteamMusicRemote_SetCurrentQueueEntry _ _ => .SteamAPI_ISteamMusicRemote_SetCurrentQueueEntry
  | .SteamAPI_ISteamMusicRemote_QueueDidChange _ => .SteamAPI_ISteamMusicRemote_QueueDidChange
  | .SteamAPI_ISteamMusicRemote_PlaylistWillChange _ => .SteamAPI_ISteamMusicRemote_PlaylistWillChange
  | .SteamAPI_ISteamMusicRemote_ResetPlaylistEntries _ => .SteamAPI_ISteamMusicRemote_ResetPlaylistEntries
  | .SteamAPI_ISteamMusicRemote_SetPlaylistEntry _ _ _ _ => .SteamAPI_ISteamMusicRemote_SetPlaylistEntry
  | .SteamAPI_ISteamMusicRemote_SetCurrentPlaylistEntry _ _ => .SteamAPI_ISteamMusicRemote_SetCurrentPlaylistEntry
  | .SteamAPI_ISteamMusicRemote_PlaylistDidChange _ => .SteamAPI_ISteamMusicRemote_PlaylistDidChange
  | .SteamAPI_ISteamNetworkingConnectionCustomSignaling_SendSignal _ _ _ _ _ => .SteamAPI_ISteamNetworkingConnectionCustomSignaling_SendSignal
  | .SteamAPI_ISteamNetworkingConnectionCustomSignaling_Release _ => .SteamAPI_ISteamNetworkingConnectionCustomSignaling_Release
  | .SteamAPI_ISteamNetworkingCustomSignalingRecvContext_OnConnectRequest _ _ _ _ => .SteamAPI_ISteamNetworkingCustomSignalingRecvContext_OnConnectRequest
  | .SteamAPI_ISteamNetworkingCustomSignalingRecvContext_SendRejectionSignal _ _ _ _ => .SteamAPI_ISteamNetworkingCustomSignalingRecvContext_SendRejectionSignal

/-- Making a call runs the function of that name on the arguments. -/
def callStub : StubCall → World → Ret × World
  | .SteamAPI_SteamAppList_v001, w =>
      let r := SteamShim.SteamAPI_SteamAppList_v001 w; (Ret.ptr r.1, r.2)
  | .SteamAPI_SteamGameSearch_v001, w =>
      let r := SteamShim.SteamAPI_SteamGameSearch_v001 w; (Ret.ptr r.1, r.2)
  | .SteamAPI_SteamMusicRemote_v001, w =>
      let r := SteamShim.SteamAPI_SteamMusicRemote_v001 w; (Ret.ptr r.1, r.2)
  | .SteamAPI_SteamTV_v001, w =>
      let r := SteamShim.SteamAPI_SteamTV_v001 w; (Ret.ptr r.1, r.2)
  | .SteamAPI_ISteamUserStats_RequestCurrentStats self, w =>
      let r := SteamShim.SteamAPI_ISteamUserStats_RequestCurrentStats self w; (Ret.bool r.1, r.2)
  | .SteamAPI_ISteamFriends_GetUserRestrictions self, w =>
      let r := SteamShim.SteamAPI_ISteamFriends_GetUserRestrictions self w; (Ret.uint r.1, r.2)
  | .SteamAPI_ISteamFriends_SetPersonaName self name, w =>
      let r := SteamShim.SteamAPI_ISteamFriends_SetPersonaName self name w; (Ret.int r.1, r.2)
  | .SteamAPI_ISteamUser_InitiateGameConnection self pAuthBlob cbMaxAuthBlob steamIDGameServer unIPServer usPortServer bSecure, w =>
      let r := SteamShim.SteamAPI_ISteamUser_InitiateGameConnection self pAuthBlob cbMaxAuthBlob steamIDGameServer unIPServer usPortServer bSecure w; (Ret.int r.1, r.2)
  | .SteamAPI_ISteamUser_TerminateGameConnection self unIPServer usPortServer, w =>
      let r := SteamShim.SteamAPI_ISteamUser_TerminateGameConnection self unIPServer usPortServer w; (Ret.void, r.2)
  | .SteamAPI_ISteamUtils_GetCSERIPPort self unIP usPort, w =>
      let r := SteamShim.SteamAPI_ISteamUtils_GetCSERIPPort self unIP usPort w; (Ret.bool r.1, r.2)
  | .SteamAPI_ISteamInput_GetGlyphForActionOrigin self eOrigin, w =>
      let r := SteamShim.SteamAPI_ISteamInput_GetGlyphForActionOrigin self eOrigin w; (Ret.str r.1, r.2)
  | .SteamAPI_ISteamInput_TriggerHapticPulse self inputHandle eTargetPad usDurationMicroSec, w =>
      let r := SteamShim.SteamAPI_ISteamInput_TriggerHapticPulse self inputHandle eTargetPad usDurationMicroSec w; (Ret.void, r.2)
  | .SteamAPI_ISteamInput_TriggerRepeatedHapticPulse self inputHandle eTargetPad usDurationMicroSec usOffMicroSec unRepeat nFlags, w =>
      let r := SteamShim.SteamAPI_ISteamInput_TriggerRepeatedHapticPulse self inputHandle eTargetPad usDurationMicroSec usOffMicroSec unRepeat nFlags w; (Ret.void, r.2)
  | .SteamAPI_ISteamNetworkingSockets_GetQuickConnectionStatus self hConn pStats, w =>
      let r := SteamShim.SteamAPI_ISteamNetworkingSockets_GetQuickConnectionStatus self hConn pStats w; (Ret.bool r.1, r.2)
  | .SteamAPI_ISteamNetworkingUtils_GetFirstConfigValue self, w =>
      let r := SteamShim.SteamAPI_ISteamNetworkingUtils_GetFirstConfigValue self w; (Ret.int r.1, r.2)
  | .SteamAPI_ISteamClient_GetISteamAppList self hSteamUser hSteamPipe pchVersion, w =>
      let r := SteamShim.SteamAPI_ISteamClient_GetISteamAppList self hSteamUser hSteamPipe pchVersion w; (Ret.ptr r.1, r.2)
  | .SteamAPI_ISteamClient_GetISteamGameSearch self hSteamUser hSteamPipe pchVersion, w =>
      let r := SteamShim.SteamAPI_ISteamClient_GetISteamGameSearch self hSteamUser hSteamPipe pchVersion w; (Ret.ptr r.1, r.2)
  | .SteamAPI_ISteamClient_GetISteamMusicRemote self hSteamUser hSteamPipe pchVersion, w =>
      let r := SteamShim.SteamAPI_ISteamClient_GetISteamMusicRemote self hSteamUser hSteamPipe pchVersion w; (Ret.ptr r.1, r.2)
  | .SteamAPI_ISteamGameServer_EnableHeartbeats self bActive, w =>
      let r := SteamShim.SteamAPI_ISteamGameServer_EnableHeartbeats self bActive w; (Ret.void, r.2)
  | .SteamAPI_ISteamGameServer_ForceHeartbeat self, w =>
      let r := SteamShim.SteamAPI_ISteamGameServer_ForceHeartbeat self w; (Ret.void, r.2)
  | .SteamAPI_ISteamGameServer_SetHeartbeatInterval self iHeartbeatInterval, w =>
      let r := SteamShim.SteamAPI_ISteamGameServer_SetHeartbeatInterval self iHeartbeatInterval w; (Ret.void, r.2)
  | .SteamAPI_ISteamGameServer_SendUserConnectAndAuthenticate self unIPClient pvAuthBlob cubAuthBlobSize pSteamIDUser, w =>
      let r := SteamShim.SteamAPI_ISteamGameServer_SendUserConnectAndAuthenticate self unIPClient pvAuthBlob cubAuthBlobSize pSteamIDUser w; (Ret.bool r.1, r.2)
  | .SteamAPI_ISteamGameServer_SendUserDisconnect self steamIDUser, w =>
      let r := SteamShim.SteamAPI_ISteamGameServer_SendUserDisconnect self steamIDUser w; (Ret.void, r.2)
  | .SteamAPI_ISteamAppList_GetNumInstalledApps self, w =>
      let r := SteamShim.SteamAPI_ISteamAppList_GetNumInstalledApps self w; (Ret.uint r.1, r.2)
  | .SteamAPI_ISteamAppList_GetInstalledApps self pvecAppID unMaxAppIDs, w =>
      let r := SteamShim.SteamAPI_ISteamAppList_GetInstalledApps self pvecAppID unMaxAppIDs w; (Ret.uint r.1, r.2)
  | .SteamAPI_ISteamAppList_GetAppName self nAppID pchName cchNameMax, w =>
      let r := SteamShim.SteamAPI_ISteamAppList_GetAppName self nAppID pchName cchNameMax w; (Ret.int r.1, r.2)
  | .SteamAPI_ISteamAppList_GetAppInstallDir self nAppID pchDirectory cchNameMax, w =>
      let r := SteamShim.SteamAPI_ISteamAppList_GetAppInstallDir self nAppID pchDirectory cchNameMax w; (Ret.int r.1, r.2)
  | .SteamAPI_ISteamAppList_GetAppBuildId self nAppID, w =>
      let r := SteamShim.SteamAPI_ISteamAppList_GetAppBuildId self nAppID w; (Ret.int r.1, r.2)
  | .SteamAPI_ISteamGameSearch_AddGameSearchParams self key val, w =>
      let r := SteamShim.SteamAPI_ISteamGameSearch_AddGameSearchParams self key val w; (Ret.int r.1, r.2)
  | .SteamAPI_ISteamGameSearch_SearchForGameWithLobby self steamIDLobby nPlayerMin nPlayerMax, w =>
      let r := SteamShim.SteamAPI_ISteamGameSearch_SearchForGameWithLobby self steamIDLobby nPlayerMin nPlayerMax w; (Ret.int r.1, r.2)
  | .SteamAPI_ISteamGameSearch_SearchForGameSolo self nPlayerMin nPlayerMax, w =>
      let r := SteamShim.SteamAPI_ISteamGameSearch_SearchForGameSolo self nPlayerMin nPlayerMax w; (Ret.int r.1, r.2)
  | .SteamAPI_ISteamGameSearch_AcceptGame self, w =>
      let r := SteamShim.SteamAPI_ISteamGameSearch_AcceptGame self w; (Ret.int r.1, r.2)
  | .SteamAPI_ISteamGameSearch_DeclineGame self, w =>
      let r := SteamShim.SteamAPI_ISteamGameSearch_DeclineGame self w; (Ret.int r.1, r.2)
  | .SteamAPI_ISteamGameSearch_RetrieveConnectionDetails self steamIDHost pchConnectionDetails cubConnectionDetails, w =>
      let r := SteamShim.SteamAPI_ISteamGameSearch_RetrieveConnectionDetails self steamIDHost pchConnectionDetails cubConnectionDetails w; (Ret.int r.1, r.2)
  | .SteamAPI_ISteamGameSearch_EndGameSearch self, w =>
      let r := SteamShim.SteamAPI_ISteamGameSearch_EndGameSearch self w; (Ret.int r.1, r.2)
  | .SteamAPI_ISteamGameSearch_SetGameHostParams self key val, w =>
      let r := SteamShim.SteamAPI_ISteamGameSearch_SetGameHostParams self key val w; (Ret.int r.1, r.2)
  | .SteamAPI_ISteamGameSearch_SetConnectionDetails self pchConnectionDetails cubConnectionDetails, w =>
      let r := SteamShim.SteamAPI_ISteamGameSearch_SetConnectionDetails self pchConnectionDetails cubConnectionDetails w; (Ret.int r.1, r.2)
  | .SteamAPI_ISteamGameSearch_RequestPlayersForGame self nPlayerMin nPlayerMax nMaxTeamSize, w =>
      let r := SteamShim.SteamAPI_ISteamGameSearch_RequestPlayersForGame self nPlayerMin nPlayerMax nMaxTeamSize w; (Ret.int r.1, r.2)
  | .SteamAPI_ISteamGameSearch_HostConfirmGameStart self ulUniqueGameID, w =>
      let r := SteamShim.SteamAPI_ISteamGameSearch_HostConfirmGameStart self ulUniqueGameID w; (Ret.int r.1, r.2)
  | .SteamAPI_ISteamGameSearch_CancelRequestPlayersForGame self, w =>
      let r := SteamShim.SteamAPI_ISteamGameSearch_CancelRequestPlayersForGame self w; (Ret.int r.1, r.2)
  | .SteamAPI_ISteamGameSearch_SubmitPlayerResult self ulUniqueGameID steamIDPlayer EPlayerResult, w =>
      let r := SteamShim.SteamAPI_ISteamGameSearch_SubmitPlayerResult self ulUniqueGameID steamIDPlayer EPlayerResult w; (Ret.int r.1, r.2)
  | .SteamAPI_ISteamGameSearch_EndGame self ulUniqueGameID, w =>
      let r := SteamShim.SteamAPI_ISteamGameSearch_EndGame self ulUniqueGameID w; (Ret.int r.1, r.2)
  | .SteamAPI_ISteamTV_IsBroadcasting self pnNumViewers, w =>
      let r := SteamShim.SteamAPI_ISteamTV_IsBroadcasting self pnNumViewers w; (Ret.bool r.1, r.2)
  | .SteamAPI_ISteamTV_AddBroadcastGameData self pchKey pchValue, w =>
      let r := SteamShim.SteamAPI_ISteamTV_AddBroadcastGameData self pchKey pchValue w; (Ret.void, r.2)
  | .SteamAPI_ISteamTV_RemoveBroadcastGameData self pchKey, w =>
      let r := SteamShim.SteamAPI_ISteamTV_RemoveBroadcastGameData self pchKey w; (Ret.void, r.2)
  | .SteamAPI_ISteamTV_AddTimelineMarker self pchTemplateName bPersistent nColorR nColorG nColorB, w =>
      let r := SteamShim.SteamAPI_ISteamTV_AddTimelineMarker self pchTemplateName bPersistent nColorR nColorG nColorB w; (Ret.void, r.2)
  | .SteamAPI_ISteamTV_RemoveTimelineMarker self, w =>
      let r := SteamShim.SteamAPI_ISteamTV_RemoveTimelineMarker self w; (Ret.void, r.2)
  | .SteamAPI_ISteamTV_AddRegion self pchElementName pchTimelineDataDescription rSrcPosition unSrcDimension, w =>
      let r := SteamShim.SteamAPI_ISteamTV_AddRegion self pchElementName pchTimelineDataDescription rSrcPosition unSrcDimension w; (Ret.uint r.1, r.2)
  | .SteamAPI_ISteamTV_RemoveRegion self unRegionHandle, w =>
      let r := SteamShim.SteamAPI_ISteamTV_RemoveRegion self unRegionHandle w; (Ret.void, r.2)
  | .SteamAPI_ISteamMusicRemote_RegisterSteamMusicRemote self pchName, w =>
      let r := SteamShim.SteamAPI_ISteamMusicRemote_RegisterSteamMusicRemote self pchName w; (Ret.bool r.1, r.2)
  | .SteamAPI_ISteamMusicRemote_DeregisterSteamMusicRemote self, w =>
      let r := SteamShim.SteamAPI_ISteamMusicRemote_DeregisterSteamMusicRemote self w; (Ret.bool r.1, r.2)
  | .SteamAPI_ISteamMusicRemote_BIsCurrentMusicRemote self, w =>
      let r := SteamShim.SteamAPI_ISteamMusicRemote_BIsCurrentMusicRemote self w; (Ret.bool r.1, r.2)
  | .SteamAPI_ISteamMusicRemote_BActivationSuccess self bValue, w =>
      let r := SteamShim.SteamAPI_ISteamMusicRemote_BActivationSuccess self bValue w; (Ret.bool r.1, r.2)
  | .SteamAPI_ISteamMusicRemote_SetDisplayName self pchDisplayName, w =>
      let r := SteamShim.SteamAPI_ISteamMusicRemote_SetDisplayName self pchDisplayName w; (Ret.bool r.1, r.2)
  | .SteamAPI_ISteamMusicRemote_SetPNGIcon_64x64 self pvBuffer cbBufferLength, w =>
      let r := SteamShim.SteamAPI_ISteamMusicRemote_SetPNGIcon_64x64 self pvBuffer cbBufferLength w; (Ret.bool r.1, r.2)
  | .SteamAPI_ISteamMusicRemote_EnablePlayPrevious self bValue, w =>
      let r := SteamShim.SteamAPI_ISteamMusicRemote_EnablePlayPrevious self bValue w; (Ret.bool r.1, r.2)
  | .SteamAPI_ISteamMusicRemote_EnablePlayNext self bValue, w =>
      let r := SteamShim.SteamAPI_ISteamMusicRemote_EnablePlayNext self bValue w; (Ret.bool r.1, r.2)
  | .SteamAPI_ISteamMusicRemote_EnableShuffled self bValue, w =>
      let r := SteamShim.SteamAPI_ISteamMusicRemote_EnableShuffled self bValue w; (Ret.bool r.1, r.2)
  | .SteamAPI_ISteamMusicRemote_EnableLooped self bValue, w =>
      let r := SteamShim.SteamAPI_ISteamMusicRemote_EnableLooped self bValue w; (Ret.bool r.1, r.2)
  | .SteamAPI_ISteamMusicRemote_EnableQueue self bValue, w =>
      let r := SteamShim.SteamAPI_ISteamMusicRemote_EnableQueue self bValue w; (Ret.bool r.1, r.2)
  | .SteamAPI_ISteamMusicRemote_EnablePlaylists self bValue, w =>
      let r := SteamShim.SteamAPI_ISteamMusicRemote_EnablePlaylists self bValue w; (Ret.bool r.1, r.2)
  | .SteamAPI_ISteamMusicRemote_UpdatePlaybackStatus self nStatus, w =>
      let r := SteamShim.SteamAPI_ISteamMusicRemote_UpdatePlaybackStatus self nStatus w; (Ret.bool r.1, r.2)
  | .SteamAPI_ISteamMusicRemote_UpdateShuffled self bValue, w =>
      let r := SteamShim.SteamAPI_ISteamMusicRemote_UpdateShuffled self bValue w; (Ret.bool r.1, r.2)
  | .SteamAPI_ISteamMusicRemote_UpdateLooped self bValue, w =>
      let r := SteamShim.SteamAPI_ISteamMusicRemote_UpdateLooped self bValue w; (Ret.bool r.1, r.2)
  | .SteamAPI_ISteamMusicRemote_UpdateVolume self flValue, w =>
      let r := SteamShim.SteamAPI_ISteamMusicRemote_UpdateVolume self flValue w; (Ret.bool r.1, r.2)
  | .SteamAPI_ISteamMusicRemote_CurrentEntryWillChange self, w =>
      let r := SteamShim.SteamAPI_ISteamMusicRemote_CurrentEntryWillChange self w; (Ret.bool r.1, r.2)
  | .SteamAPI_ISteamMusicRemote_CurrentEntryIsAvailable self bAvailable, w =>
      let r := SteamShim.SteamAPI_ISteamMusicRemote_CurrentEntryIsAvailable self bAvailable w; (Ret.bool r.1, r.2)
  | .SteamAPI_ISteamMusicRemote_UpdateCurrentEntryText self pchText, w =>
      let r := SteamShim.SteamAPI_ISteamMusicRemote_UpdateCurrentEntryText self pchText w; (Ret.bool r.1, r.2)
  | .SteamAPI_ISteamMusicRemote_UpdateCurrentEntryElapsedSeconds self nValue, w =>
      let r := SteamShim.SteamAPI_ISteamMusicRemote_UpdateCurrentEntryElapsedSeconds self nValue w; (Ret.bool r.1, r.2)
  | .SteamAPI_ISteamMusicRemote_UpdateCurrentEntryCoverArt self pvBuffer cbBufferLength, w =>
      let r := SteamShim.SteamAPI_ISteamMusicRemote_UpdateCurrentEntryCoverArt self pvBuffer cbBufferLength w; (Ret.bool r.1, r.2)
  | .SteamAPI_ISteamMusicRemote_CurrentEntryDidChange self, w =>
      let r := SteamShim.SteamAPI_ISteamMusicRemote_CurrentEntryDidChange self w; (Ret.bool r.1, r.2)
  | .SteamAPI_ISteamMusicRemote_QueueWillChange self, w =>
      let r := SteamShim.SteamAPI_ISteamMusicRemote_QueueWillChange self w; (Ret.bool r.1, r.2)
  | .SteamAPI_ISteamMusicRemote_ResetQueueEntries self, w =>
      let r := SteamShim.SteamAPI_ISteamMusicRemote_ResetQueueEntries self w; (Ret.bool r.1, r.2)
  | .SteamAPI_ISteamMusicRemote_SetQueueEntry self nID nPosition pchEntryText, w =>
      let r := SteamShim.SteamAPI_ISteamMusicRemote_SetQueueEntry self nID nPosition pchEntryText w; (Ret.bool r.1, r.2)
  | .SteamAPI_ISteamMusicRemote_SetCurrentQueueEntry self nID, w =>
      let r := SteamShim.SteamAPI_ISteamMusicRemote_SetCurrentQueueEntry self nID w; (Ret.bool r.1, r.2)
  | .SteamAPI_ISteamMusicRemote_QueueDidChange self, w =>
      let r := SteamShim.SteamAPI_ISteamMusicRemote_QueueDidChange self w; (Ret.bool r.1, r.2)
  | .SteamAPI_ISteamMusicRemote_PlaylistWillChange self, w =>
      let r := SteamShim.SteamAPI_ISteamMusicRemote_PlaylistWillChange self w; (Ret.bool r.1, r.2)
  | .SteamAPI_ISteamMusicRemote_ResetPlaylistEntries self, w =>
      let r := SteamShim.SteamAPI_ISteamMusicRemote_ResetPlaylistEntries self w; (Ret.bool r.1, r.2)
  | .SteamAPI_ISteamMusicRemote_SetPlaylistEntry self nID nPosition pchEntryText, w =>
      let r := SteamShim.SteamAPI_ISteamMusicRemote_SetPlaylistEntry self nID nPosition pchEntryText w; (Ret.bool r.1, r.2)
  | .SteamAPI_ISteamMusicRemote_SetCurrentPlaylistEntry self nID, w =>
      let r := SteamShim.SteamAPI_ISteamMusicRemote_SetCurrentPlaylistEntry self nID w; (Ret.bool r.1, r.2)
  | .SteamAPI_ISteamMusicRemote_PlaylistDidChange self, w =>
      let r := SteamShim.SteamAPI_ISteamMusicRemote_PlaylistDidChange self w; (Ret.bool r.1, r.2)
  | .SteamAPI_ISteamNetworkingConnectionCustomSignaling_SendSignal self hConn info pMsg cbMsg, w =>
      let r := SteamShim.SteamAPI_ISteamNetworkingConnectionCustomSignaling_SendSignal self hConn info pMsg cbMsg w; (Ret.bool r.1, r.2)
  | .SteamAPI_ISteamNetworkingConnectionCustomSignaling_Release self, w =>
      let r := SteamShim.SteamAPI_ISteamNetworkingConnectionCustomSignaling_Release self w; (Ret.void, r.2)
  | .SteamAPI_ISteamNetworkingCustomSignalingRecvContext_OnConnectRequest self hConn identityPeer nLocalVirtualPort, w =>
      let r := SteamShim.SteamAPI_ISteamNetworkingCustomSignalingRecvContext_OnConnectRequest self hConn identityPeer nLocalVirtualPort w; (Ret.ptr r.1, r.2)
  | .SteamAPI_ISteamNetworkingCustomSignalingRecvContext_SendRejectionSignal self identityPeer pMsg cbMsg, w =>
      let r := SteamShim.SteamAPI_ISteamNetworkingCustomSignalingRecvContext_SendRejectionSignal self identityPeer pMsg cbMsg w; (Ret.void, r.2)

/-- The call of a stub with null pointers, zero numbers and false flags as arguments. -/
def Stub.nullCall : Stub → StubCall
  | .SteamAPI_SteamAppList_v001 => .SteamAPI_SteamAppList_v001
  | .SteamAPI_SteamGameSearch_v001 => .SteamAPI_SteamGameSearch_v001
  | .SteamAPI_SteamMusicRemote_v001 => .SteamAPI_SteamMusicRemote_v001
  | .SteamAPI_SteamTV_v001 => .SteamAPI_SteamTV_v001
  | .SteamAPI_ISteamUserStats_RequestCurrentStats => .SteamAPI_ISteamUserStats_RequestCurrentStats NULL
  | .SteamAPI_ISteamFriends_GetUserRestrictions => .SteamAPI_ISteamFriends_GetUserRestrictions NULL
  | .SteamAPI_ISteamFriends_SetPersonaName => .SteamAPI_ISteamFriends_SetPersonaName NULL NULL
  | .SteamAPI_ISteamUser_InitiateGameConnection => .SteamAPI_ISteamUser_InitiateGameConnection NULL NULL 0 0 0 0 false
  | .SteamAPI_ISteamUser_TerminateGameConnection => .SteamAPI_ISteamUser_TerminateGameConnection NULL 0 0
  | .SteamAPI_ISteamUtils_GetCSERIPPort => .SteamAPI_ISteamUtils_GetCSERIPPort NULL NULL NULL
  | .SteamAPI_ISteamInput_GetGlyphForActionOrigin => .SteamAPI_ISteamInput_GetGlyphForActionOrigin NULL 0
  | .SteamAPI_ISteamInput_TriggerHapticPulse => .SteamAPI_ISteamInput_TriggerHapticPulse NULL 0 0 0
  | .SteamAPI_ISteamInput_TriggerRepeatedHapticPulse => .SteamAPI_ISteamInput_TriggerRepeatedHapticPulse NULL 0 0 0 0 0 0
  | .SteamAPI_ISteamNetworkingSockets_GetQuickConnectionStatus => .SteamAPI_ISteamNetworkingSockets_GetQuickConnectionStatus NULL 0 NULL
  | .SteamAPI_ISteamNetworkingUtils_GetFirstConfigValue => .SteamAPI_ISteamNetworkingUtils_GetFirstConfigValue NULL
  | .SteamAPI_ISteamClient_GetISteamAppList => .SteamAPI_ISteamClient_GetISteamAppList NULL 0 0 NULL
  | .SteamAPI_ISteamClient_GetISteamGameSearch => .SteamAPI_ISteamClient_GetISteamGameSearch NULL 0 0 NULL
  | .SteamAPI_ISteamClient_GetISteamMusicRemote => .SteamAPI_ISteamClient_GetISteamMusicRemote NULL 0 0 NULL
  | .SteamAPI_ISteamGameServer_EnableHeartbeats => .SteamAPI_ISteamGameServer_EnableHeartbeats NULL false
  | .SteamAPI_ISteamGameServer_ForceHeartbeat => .SteamAPI_ISteamGameServer_ForceHeartbeat NULL
  | .SteamAPI_ISteamGameServer_SetHeartbeatInterval => .SteamAPI_ISteamGameServer_SetHeartbeatInterval NULL 0
  | .SteamAPI_ISteamGameServer_SendUserConnectAndAuthenticate => .SteamAPI_ISteamGameServer_SendUserConnectAndAuthenticate NULL 0 NULL 0 NULL
  | .SteamAPI_ISteamGameServer_SendUserDisconnect => .SteamAPI_ISteamGameServer_SendUserDisconnect NULL 0
  | .SteamAPI_ISteamAppList_GetNumInstalledApps => .SteamAPI_ISteamAppList_GetNumInstalledApps NULL
  | .SteamAPI_ISteamAppList_GetInstalledApps => .SteamAPI_ISteamAppList_GetInstalledApps NULL NULL 0
  | .SteamAPI_ISteamAppList_GetAppName => .SteamAPI_ISteamAppList_GetAppName NULL 0 NULL 0
  | .SteamAPI_ISteamAppList_GetAppInstallDir => .SteamAPI_ISteamAppList_GetAppInstallDir NULL 0 NULL 0
  | .SteamAPI_ISteamAppList_GetAppBuildId => .SteamAPI_ISteamAppList_GetAppBuildId NULL 0
  | .SteamAPI_ISteamGameSearch_AddGameSearchParams => .SteamAPI_ISteamGameSearch_AddGameSearchParams NULL NULL NULL
  | .SteamAPI_ISteamGameSearch_SearchForGameWithLobby => .SteamAPI_ISteamGameSearch_SearchForGameWithLobby NULL 0 0 0
  | .SteamAPI_ISteamGameSearch_SearchForGameSolo => .SteamAPI_ISteamGameSearch_SearchForGameSolo NULL 0 0
  | .SteamAPI_ISteamGameSearch_AcceptGame => .SteamAPI_ISteamGameSearch_AcceptGame NULL
  | .SteamAPI_ISteamGameSearch_DeclineGame => .SteamAPI_ISteamGameSearch_DeclineGame NULL
  | .SteamAPI_ISteamGameSearch_RetrieveConnectionDetails => .SteamAPI_ISteamGameSearch_RetrieveConnectionDetails NULL 0 NULL 0
  | .SteamAPI_ISteamGameSearch_EndGameSearch => .SteamAPI_ISteamGameSearch_EndGameSearch NULL
  | .SteamAPI_ISteamGameSearch_SetGameHostParams => .SteamAPI_ISteamGameSearch_SetGameHostParams NULL NULL NULL
  | .SteamAPI_ISteamGameSearch_SetConnectionDetails => .SteamAPI_ISteamGameSearch_SetConnectionDetails NULL NULL 0
  | .SteamAPI_ISteamGameSearch_RequestPlayersForGame => .SteamAPI_ISteamGameSearch_RequestPlayersForGame NULL 0 0 0
  | .SteamAPI_ISteamGameSearch_HostConfirmGameStart => .SteamAPI_ISteamGameSearch_HostConfirmGameStart NULL 0
  | .SteamAPI_ISteamGameSearch_CancelRequestPlayersForGame => .SteamAPI_ISteamGameSearch_CancelRequestPlayersForGame NULL
  | .SteamAPI_ISteamGameSearch_SubmitPlayerResult => .SteamAPI_ISteamGameSearch_SubmitPlayerResult NULL 0 0 0
  | .SteamAPI_ISteamGameSearch_EndGame => .SteamAPI_ISteamGameSearch_EndGame NULL 0
  | .SteamAPI_ISteamTV_IsBroadcasting => .SteamAPI_ISteamTV_IsBroadcasting NULL NULL
  | .SteamAPI_ISteamTV_AddBroadcastGameData => .SteamAPI_ISteamTV_AddBroadcastGameData NULL NULL NULL
  | .SteamAPI_ISteamTV_RemoveBroadcastGameData => .SteamAPI_ISteamTV_RemoveBroadcastGameData NULL NULL
  | .SteamAPI_ISteamTV_AddTimelineMarker => .SteamAPI_ISteamTV_AddTimelineMarker NULL NULL false 0 0 0
  | .SteamAPI_ISteamTV_RemoveTimelineMarker => .SteamAPI_ISteamTV_RemoveTimelineMarker NULL
  | .SteamAPI_ISteamTV_AddRegion => .SteamAPI_ISteamTV_AddRegion NULL NULL NULL NULL 0
  | .SteamAPI_ISteamTV_RemoveRegion => .SteamAPI_ISteamTV_RemoveRegion NULL 0
  | .SteamAPI_ISteamMusicRemote_RegisterSteamMusicRemote => .SteamAPI_ISteamMusicRemote_RegisterSteamMusicRemote NULL NULL
  | .SteamAPI_ISteamMusicRemote_DeregisterSteamMusicRemote => .SteamAPI_ISteamMusicRemote_DeregisterSteamMusicRemote NULL
  | .SteamAPI_ISteamMusicRemote_BIsCurrentMusicRemote => .SteamAPI_ISteamMusicRemote_BIsCurrentMusicRemote NULL
  | .SteamAPI_ISteamMusicRemote_BActivationSuccess => .SteamAPI_ISteamMusicRemote_BActivationSuccess NULL false
  | .SteamAPI_ISteamMusicRemote_SetDisplayName => .SteamAPI_ISteamMusicRemote_SetDisplayName NULL NULL
  | .SteamAPI_ISteamMusicRemote_SetPNGIcon_64x64 => .SteamAPI_ISteamMusicRemote_SetPNGIcon_64x64 NULL NULL 0
  | .SteamAPI_ISteamMusicRemote_EnablePlayPrevious => .SteamAPI_ISteamMusicRemote_EnablePlayPrevious NULL false
  | .SteamAPI_ISteamMusicRemote_EnablePlayNext => .SteamAPI_ISteamMusicRemote_EnablePlayNext NULL false
  | .SteamAPI_ISteamMusicRemote_EnableShuffled => .SteamAPI_ISteamMusicRemote_EnableShuffled NULL false
  | .SteamAPI_ISteamMusicRemote_EnableLooped => .SteamAPI_ISteamMusicRemote_EnableLooped NULL false
  | .SteamAPI_ISteamMusicRemote_EnableQueue => .SteamAPI_ISteamMusicRemote_EnableQueue NULL false
  | .SteamAPI_ISteamMusicRemote_EnablePlaylists => .SteamAPI_ISteamMusicRemote_EnablePlaylists NULL false
  | .SteamAPI_ISteamMusicRemote_UpdatePlaybackStatus => .SteamAPI_ISteamMusicRemote_UpdatePlaybackStatus NULL 0
  | .SteamAPI_ISteamMusicRemote_UpdateShuffled => .SteamAPI_ISteamMusicRemote_UpdateShuffled NULL false
  | .SteamAPI_ISteamMusicRemote_UpdateLooped => .SteamAPI_ISteamMusicRemote_UpdateLooped NULL false
  | .SteamAPI_ISteamMusicRemote_UpdateVolume => .SteamAPI_ISteamMusicRemote_UpdateVolume NULL 0
  | .SteamAPI_ISteamMusicRemote_CurrentEntryWillChange => .SteamAPI_ISteamMusicRemote_CurrentEntryWillChange NULL
  | .SteamAPI_ISteamMusicRemote_CurrentEntryIsAvailable => .SteamAPI_ISteamMusicRemote_CurrentEntryIsAvailable NULL false
  | .SteamAPI_ISteamMusicRemote_UpdateCurrentEntryText => .SteamAPI_ISteamMusicRemote_UpdateCurrentEntryText NULL NULL
  | .SteamAPI_ISteamMusicRemote_UpdateCurrentEntryElapsedSeconds => .SteamAPI_ISteamMusicRemote_UpdateCurrentEntryElapsedSeconds NULL 0
  | .SteamAPI_ISteamMusicRemote_UpdateCurrentEntryCoverArt => .SteamAPI_ISteamMusicRemote_UpdateCurrentEntryCoverArt NULL NULL 0
  | .SteamAPI_ISteamMusicRemote_CurrentEntryDidChange => .SteamAPI_ISteamMusicRemote_CurrentEntryDidChange NULL
  | .SteamAPI_ISteamMusicRemote_QueueWillChange => .SteamAPI_ISteamMusicRemote_QueueWillChange NULL
  | .SteamAPI_ISteamMusicRemote_ResetQueueEntries => .SteamAPI_ISteamMusicRemote_ResetQueueEntries NULL
  | .SteamAPI_ISteamMusicRemote_SetQueueEntry => .SteamAPI_ISteamMusicRemote_SetQueueEntry NULL 0 0 NULL
  | .SteamAPI_ISteamMusicRemote_SetCurrentQueueEntry => .SteamAPI_ISteamMusicRemote_SetCurrentQueueEntry NULL 0
  | .SteamAPI_ISteamMusicRemote_QueueDidChange => .SteamAPI_ISteamMusicRemote_QueueDidChange NULL
  | .SteamAPI_ISteamMusicRemote_PlaylistWillChange => .SteamAPI_ISteamMusicRemote_PlaylistWillChange NULL
  | .SteamAPI_ISteamMusicRemote_ResetPlaylistEntries => .SteamAPI_ISteamMusicRemote_ResetPlaylistEntries NULL
  | .SteamAPI_ISteamMusicRemote_SetPlaylistEntry => .SteamAPI_ISteamMusicRemote_SetPlaylistEntry NULL 0 0 NULL
  | .SteamAPI_ISteamMusicRemote_SetCurrentPlaylistEntry => .SteamAPI_ISteamMusicRemote_SetCurrentPlaylistEntry NULL 0
  | .SteamAPI_ISteamMusicRemote_PlaylistDidChange => .SteamAPI_ISteamMusicRemote_PlaylistDidChange NULL
  | .SteamAPI_ISteamNetworkingConnectionCustomSignaling_SendSignal => .SteamAPI_ISteamNetworkingConnectionCustomSignaling_SendSignal NULL 0 NULL NULL 0
  | .SteamAPI_ISteamNetworkingConnectionCustomSignaling_Release => .SteamAPI_ISteamNetworkingConnectionCustomSignaling_Release NULL
  | .SteamAPI_ISteamNetworkingCustomSignalingRecvContext_OnConnectRequest => .SteamAPI_ISteamNetworkingCustomSignalingRecvContext_OnConnectRequest NULL 0 NULL 0
  | .SteamAPI_ISteamNetworkingCustomSignalingRecvContext_SendRejectionSignal => .SteamAPI_ISteamNetworkingCustomSignalingRecvContext_SendRejectionSignal NULL NULL NULL 0

/-! ## Concrete environments used to exercise the definitions -/

/-- A world with an empty stderr log, an empty call trace and zeroed memory. -/
def emptyWorld : World := ⟨[], [], fun _ => 0⟩

/-- An SDK whose initializer fails with code -2 and writes the message "no client". -/
def sdkFailing : Sdk where
  SteamAPI_InitFlat := fun buf => (-2, "no client".toList ++ buf.drop 9)
  accessor := fun _ => NULL

/-- An SDK whose initializer fails with code 1 and writes a message holding a newline. -/
def sdkTwoLines : Sdk where
  SteamAPI_InitFlat := fun buf => (1, ['a', '\n', 'b'] ++ buf.drop 3)
  accessor := fun _ => NULL

/-- An SDK whose initializer fails with code 5 and leaves the error buffer untouched. -/
def sdkSilent : Sdk where
  SteamAPI_InitFlat := fun buf => (5, buf)
  accessor := fun _ => NULL

/-- An SDK whose initializer succeeds and leaves the error buffer untouched. -/
def sdkWorking : Sdk where
  SteamAPI_InitFlat := fun buf => (0, buf)
  accessor := fun _ => NULL

/-- The value a stub returns when called with null arguments in the empty world. -/
def Stub.value (s : Stub) : Ret :=
  (callStub s.nullCall emptyWorld).1

/-- The stub symbols whose exported name starts with the given text, in source order. -/
def stubsNamed (pre : String) : List Stub :=
  allStubs.filter (fun s => pre.toList.isPrefixOf s.name.toList)

/-- Whether a returned value has one of the integer types. -/
def Ret.isInteger : Ret → Bool
  | .int _ => true
  | .uint _ => true
  | _ => false

/-! # Theorems -/

/-! ## Lemmas on the printf conversions and on SteamAPI_Init -/

theorem digitChar_mod_ten_ne_newline (n : Nat) : Nat.digitChar (n % 10) ≠ '\n' := by
  have h : n % 10 < 10 := Nat.mod_lt _ (by decide)
  generalize n % 10 = k at h
  interval_cases k <;> decide

theorem toDigitsCore_no_newline (fuel : Nat) : ∀ (n : Nat) (acc : List Char),
    '\n' ∉ acc → '\n' ∉ Nat.toDigitsCore 10 fuel n acc := by
  induction fuel with
  | zero => intro n acc h; simpa [Nat.toDigitsCore] using h
  | succ f ih =>
    intro n acc h
    simp only [Nat.toDigitsCore]
    split
    · simp [List.mem_cons, h, (digitChar_mod_ten_ne_newline _).symm]
    · apply ih
      simp [List.mem_cons, h, (digitChar_mod_ten_ne_newline _).symm]

/-- The %d conversion never produces a newline character. -/
theorem printfD_no_newline (r : Int) : '\n' ∉ printfD r := by
  cases r with
  | ofNat n => exact toDigitsCore_no_newline _ _ _ (by simp)
  | negSucc n =>
    simp only [printfD, List.mem_cons, not_or]
    exact ⟨by decide, toDigitsCore_no_newline _ _ _ (by simp)⟩

/-- The %d conversion agrees with the decimal rendering of integers. -/
theorem printfD_eq_toString (r : Int) : String.mk (printfD r) = toString r := by
  cases r <;> rfl

/-- The %s conversion is defined exactly on the arrays that hold a NUL. -/
theorem printfS_of_mem {buf : List Char} (h : NUL ∈ buf) :
    printfS buf = some (buf.takeWhile (fun c => c != NUL)) := by
  simp [printfS, h]

/-- The success path of SteamAPI_Init, lines 66 and 67. -/
theorem SteamAPI_Init_of_zero (sdk : Sdk) (stack : List Char) (w : World)
    (h : (sdk.SteamAPI_InitFlat (memset stack NUL sizeofSteamErrMsg)).1 = 0) :
    SteamAPI_Init sdk stack w =
      some (true,
        { stderr := w.stderr ++ "SteamAPI_Init (shim): Success!\n".toList,
          calls := w.calls ++ [SdkCall.InitFlat (memset stack NUL sizeofSteamErrMsg)],
          mem := w.mem }) := by
  simp [SteamAPI_Init, h]

/-- The failure path of SteamAPI_Init, lines 63 and 64. -/
theorem SteamAPI_Init_of_ne_zero (sdk : Sdk) (stack : List Char) (w : World) (m : List Char)
    (h : (sdk.SteamAPI_InitFlat (memset stack NUL sizeofSteamErrMsg)).1 ≠ 0)
    (hm : printfS (sdk.SteamAPI_InitFlat (memset stack NUL sizeofSteamErrMsg)).2 = some m) :
    SteamAPI_Init sdk stack w =
      some (false,
        { stderr := w.stderr ++ ("SteamAPI_Init (shim): InitFlat failed (".toList
              ++ printfD (sdk.SteamAPI_InitFlat (memset stack NUL sizeofSteamErrMsg)).1
              ++ "): ".toList ++ m ++ "\n".toList),
          calls := w.calls ++ [SdkCall.InitFlat (memset stack NUL sizeofSteamErrMsg)],
          mem := w.mem }) := by
  simp [SteamAPI_Init, h, hm]

/-- The undefined case of SteamAPI_Init: a failure that leaves no NUL in the buffer. -/
theorem SteamAPI_Init_of_unterminated (sdk : Sdk) (stack : List Char) (w : World)
    (h : (sdk.SteamAPI_InitFlat (memset stack NUL sizeofSteamErrMsg)).1 ≠ 0)
    (hm : NUL ∉ (sdk.SteamAPI_InitFlat (memset stack NUL sizeofSteamErrMsg)).2) :
    SteamAPI_Init sdk stack w = none := by
  simp [SteamAPI_Init, h, printfS, hm]

/-- Appending text to a log writes as many lines as the text has newline characters. -/
theorem linesWritten_append (log text : List Char) :
    linesWritten log (log ++ text) = text.count '\n' := by
  simp [linesWritten]

/-- The memset of SteamAPI_Init zeroes the whole array. -/
theorem memset_full (stack : List Char) (c : Char) (h : stack.length = sizeofSteamErrMsg) :
    memset stack c sizeofSteamErrMsg = List.replicate sizeofSteamErrMsg c := by
  simp [memset, ← h]

theorem takeWhile_message (m rest : List Char) (h : NUL ∉ m) :
    (m ++ NUL :: rest).takeWhile (fun c => c != NUL) = m := by
  induction m with
  | nil => simp [List.takeWhile]
  | cons c cs ih =>
    have hc : c ≠ NUL := fun e => h (by simp [e])
    have hcs : NUL ∉ cs := fun e => h (by simp [e])
    have hb : (c != NUL) = true := by simpa using hc
    rw [List.cons_append, List.takeWhile_cons, hb]
    simp [ih hcs]

/-- A NUL-terminated message at the start of an array is what the %s conversion prints. -/
theorem printfS_message (m rest : List Char) (h : NUL ∉ m) :
    printfS (m ++ NUL :: rest) = some m := by
  have hmem : NUL ∈ m ++ NUL :: rest := by simp
  rw [printfS_of_mem hmem, takeWhile_message m rest h]

/-! ## SteamAPI_Init: result, diagnostic, calls into the SDK, error buffer -/

/-- C1: for every behaviour of SteamAPI_InitFlat, SteamAPI_Init returns true if and only if
SteamAPI_InitFlat returned 0; every non-zero return value, positive or negative, that comes with
a NUL-terminated message in the error buffer makes SteamAPI_Init return false. -/
theorem SteamAPI_Init_true_iff_InitFlat_zero (sdk : Sdk) (stack : List Char) (w : World) :
    ((SteamAPI_Init sdk stack w).map Prod.fst = some true ↔
        (sdk.SteamAPI_InitFlat (memset stack NUL sizeofSteamErrMsg)).1 = 0) ∧
    ((sdk.SteamAPI_InitFlat (memset stack NUL sizeofSteamErrMsg)).1 ≠ 0 →
      NUL ∈ (sdk.SteamAPI_InitFlat (memset stack NUL sizeofSteamErrMsg)).2 →
        (SteamAPI_Init sdk stack w).map Prod.fst = some false) := by
  refine ⟨⟨fun h => ?_, fun h => ?_⟩, fun h hm => ?_⟩
  · by_contra hne
    by_cases hm : NUL ∈ (sdk.SteamAPI_InitFlat (memset stack NUL sizeofSteamErrMsg)).2
    · rw [SteamAPI_Init_of_ne_zero sdk stack w _ hne (printfS_of_mem hm)] at h
      simp at h
    · rw [SteamAPI_Init_of_unterminated sdk stack w hne hm] at h
      simp at h
  · rw [SteamAPI_Init_of_zero sdk stack w h]
    rfl
  · rw [SteamAPI_Init_of_ne_zero sdk stack w _ h (printfS_of_mem hm)]
    rfl

/-- Witness for C1: an initializer failing with code -2 and the message "no client". -/
theorem SteamAPI_Init_true_iff_InitFlat_zero_witness :
    (sdkFailing.SteamAPI_InitFlat (memset [] NUL sizeofSteamErrMsg)).1 ≠ 0 ∧
    NUL ∈ (sdkFailing.SteamAPI_InitFlat (memset [] NUL sizeofSteamErrMsg)).2 ∧
    (SteamAPI_Init sdkFailing [] emptyWorld).map Prod.fst = some false :=
  ⟨by decide, by decide,
    (SteamAPI_Init_true_iff_InitFlat_zero sdkFailing [] emptyWorld).2 (by decide) (by decide)⟩

/-- C6, counterexample: an initializer that fails with code 1 and leaves the NUL-terminated
message made of a, newline, b in the error buffer makes SteamAPI_Init write two lines to an
empty stderr log, not one. -/
theorem SteamAPI_Init_two_lines_counterexample :
    (sdkTwoLines.SteamAPI_InitFlat (memset [] NUL sizeofSteamErrMsg)).1 = 1 ∧
    printfS (sdkTwoLines.SteamAPI_InitFlat (memset [] NUL sizeofSteamErrMsg)).2
      = some ['a', '\n', 'b'] ∧
    (SteamAPI_Init sdkTwoLines [] emptyWorld).map
        (fun out => (out.1, out.2.stderr, linesWritten emptyWorld.stderr out.2.stderr))
      = some (false, "SteamAPI_Init (shim): InitFlat failed (1): a\nb\n".toList, 2) := by
  decide

/-- C6, amended: when SteamAPI_InitFlat returns 0, SteamAPI_Init appends exactly the line
"SteamAPI_Init (shim): Success!" to stderr, which is one line, and returns true.  When it returns
a non-zero code r and leaves a NUL-terminated message m in the error buffer, SteamAPI_Init
appends exactly the text "SteamAPI_Init (shim): InitFlat failed (r): m" followed by one newline
(r in decimal) and returns false; that text is 1 + (number of newline characters in m) lines,
so exactly one line when m holds no newline. -/
theorem SteamAPI_Init_diagnostic (sdk : Sdk) (stack : List Char) (w : World) :
    ((sdk.SteamAPI_InitFlat (memset stack NUL sizeofSteamErrMsg)).1 = 0 →
      ∃ w', SteamAPI_Init sdk stack w = some (true, w') ∧
        w'.stderr = w.stderr ++ "SteamAPI_Init (shim): Success!".toList ++ ['\n'] ∧
        linesWritten w.stderr w'.stderr = 1) ∧
    (∀ m rest : List Char,
      (sdk.SteamAPI_InitFlat (memset stack NUL sizeofSteamErrMsg)).1 ≠ 0 →
      (sdk.SteamAPI_InitFlat (memset stack NUL sizeofSteamErrMsg)).2 = m ++ NUL :: rest →
      NUL ∉ m →
      ∃ w', SteamAPI_Init sdk stack w = some (false, w') ∧
        w'.stderr = w.stderr ++ "SteamAPI_Init (shim): InitFlat failed (".toList
          ++ printfD (sdk.SteamAPI_InitFlat (memset stack NUL sizeofSteamErrMsg)).1
          ++ "): ".toList ++ m ++ ['\n'] ∧
        linesWritten w.stderr w'.stderr = 1 + m.count '\n' ∧
        ('\n' ∉ m → linesWritten w.stderr w'.stderr = 1)) := by
  refine ⟨fun h => ?_, fun m rest h hbuf hm => ?_⟩
  · refine ⟨_, SteamAPI_Init_of_zero sdk stack w h, by simp, ?_⟩
    rw [linesWritten_append]
    decide
  · have hs : printfS (sdk.SteamAPI_InitFlat (memset stack NUL sizeofSteamErrMsg)).2 = some m := by
      rw [hbuf]; exact printfS_message m rest hm
    have hd := printfD_no_newline (sdk.SteamAPI_InitFlat (memset stack NUL sizeofSteamErrMsg)).1
    have hcount : linesWritten w.stderr (w.stderr ++ ("SteamAPI_Init (shim): InitFlat failed (".toList
          ++ printfD (sdk.SteamAPI_InitFlat (memset stack NUL sizeofSteamErrMsg)).1
          ++ "): ".toList ++ m ++ "\n".toList)) = 1 + m.count '\n' := by
      rw [linesWritten_append]
      simp only [List.count_append, List.count_eq_zero_of_not_mem hd]
      have h1 : List.count '\n' "SteamAPI_Init (shim): InitFlat failed (".toList = 0 := by decide
      have h2 : List.count '\n' "): ".toList = 0 := by decide
      have h3 : List.count '\n' "\n".toList = 1 := by decide
      rw [h1, h2, h3]
      omega
    refine ⟨_, SteamAPI_Init_of_ne_zero sdk stack w m h hs, by simp, hcount, fun hn => ?_⟩
    rw [hcount, List.count_eq_zero_of_not_mem hn]

/-- Witness for C6: a successful initializer, and one failing with code -2 and the message
"no client". -/
theorem SteamAPI_Init_diagnostic_witness :
    (∃ w', SteamAPI_Init sdkWorking [] emptyWorld = some (true, w') ∧
        w'.stderr = emptyWorld.stderr ++ "SteamAPI_Init (shim): Success!".toList ++ ['\n'] ∧
        linesWritten emptyWorld.stderr w'.stderr = 1) ∧
    (∃ w', SteamAPI_Init sdkFailing [] emptyWorld = some (false, w') ∧
        w'.stderr = emptyWorld.stderr ++ "SteamAPI_Init (shim): InitFlat failed (".toList
          ++ printfD (sdkFailing.SteamAPI_InitFlat (memset [] NUL sizeofSteamErrMsg)).1
          ++ "): ".toList ++ "no client".toList ++ ['\n'] ∧
        linesWritten emptyWorld.stderr w'.stderr = 1 + "no client".toList.count '\n' ∧
        ('\n' ∉ "no client".toList → linesWritten emptyWorld.stderr w'.stderr = 1)) :=
  ⟨(SteamAPI_Init_diagnostic sdkWorking [] emptyWorld).1 (by decide),
   (SteamAPI_Init_diagnostic sdkFailing [] emptyWorld).2 "no client".toList
      (List.replicate 1014 NUL) (by decide) (by decide) (by decide)⟩

/-- C7: SteamAPI_Init has no retry or recovery logic.  For every behaviour of SteamAPI_InitFlat
(success, or failure with a NUL-terminated message in the error buffer) one invocation of
SteamAPI_Init returns and adds exactly one call to the trace of calls into the real SDK: a call
of SteamAPI_InitFlat, also when that call fails, and no call of any other SDK function. -/
theorem SteamAPI_Init_calls_InitFlat_once (sdk : Sdk) (stack : List Char) (w : World)
    (h : (sdk.SteamAPI_InitFlat (memset stack NUL sizeofSteamErrMsg)).1 = 0 ∨
      NUL ∈ (sdk.SteamAPI_InitFlat (memset stack NUL sizeofSteamErrMsg)).2) :
    ∃ ret w', SteamAPI_Init sdk stack w = some (ret, w') ∧
      w'.calls = w.calls ++ [SdkCall.InitFlat (memset stack NUL sizeofSteamErrMsg)] ∧
      (w'.calls.drop w.calls.length).length = 1 := by
  by_cases hz : (sdk.SteamAPI_InitFlat (memset stack NUL sizeofSteamErrMsg)).1 = 0
  · exact ⟨_, _, SteamAPI_Init_of_zero sdk stack w hz, rfl, by simp⟩
  · have hm : NUL ∈ (sdk.SteamAPI_InitFlat (memset stack NUL sizeofSteamErrMsg)).2 :=
      h.resolve_left hz
    exact ⟨_, _, SteamAPI_Init_of_ne_zero sdk stack w _ hz (printfS_of_mem hm), rfl, by simp⟩

/-- Witness for C7: an initializer failing with code -2 and the message "no client" is called
once. -/
theorem SteamAPI_Init_calls_InitFlat_once_witness :
    ((sdkFailing.SteamAPI_InitFlat (memset [] NUL sizeofSteamErrMsg)).1 = 0 ∨
      NUL ∈ (sdkFailing.SteamAPI_InitFlat (memset [] NUL sizeofSteamErrMsg)).2) ∧
    ∃ ret w', SteamAPI_Init sdkFailing [] emptyWorld = some (ret, w') ∧
      w'.calls = emptyWorld.calls ++ [SdkCall.InitFlat (memset [] NUL sizeofSteamErrMsg)] ∧
      (w'.calls.drop emptyWorld.calls.length).length = 1 :=
  ⟨by decide, SteamAPI_Init_calls_InitFlat_once sdkFailing [] emptyWorld (by decide)⟩

/-- C10: SteamAPI_Init hands SteamAPI_InitFlat a fully zeroed error buffer.  Whatever the local
array of 1024 chars held before, all 1024 chars are NUL at the moment of the call; and if
SteamAPI_InitFlat fails with code r and leaves that buffer as it was, the text written to stderr
is exactly "SteamAPI_Init (shim): InitFlat failed (r): " followed by the newline. -/
theorem SteamAPI_Init_zeroed_buffer (sdk : Sdk) (stack : List Char) (w : World)
    (hlen : stack.length = 1024) :
    memset stack NUL sizeofSteamErrMsg = List.replicate 1024 NUL ∧
    (∀ r : Int, sdk.SteamAPI_InitFlat (List.replicate 1024 NUL) = (r, List.replicate 1024 NUL) →
      r ≠ 0 →
      ∃ w', SteamAPI_Init sdk stack w = some (false, w') ∧
        w'.calls = w.calls ++ [SdkCall.InitFlat (List.replicate 1024 NUL)] ∧
        w'.stderr = w.stderr ++ "SteamAPI_Init (shim): InitFlat failed (".toList
          ++ printfD r ++ "): ".toList ++ ['\n']) := by
  have hz : memset stack NUL sizeofSteamErrMsg = List.replicate 1024 NUL :=
    memset_full stack NUL hlen
  refine ⟨hz, fun r hr hne => ?_⟩
  have h1 : (sdk.SteamAPI_InitFlat (memset stack NUL sizeofSteamErrMsg)).1 = r := by
    rw [hz, hr]
  have h2 : printfS (sdk.SteamAPI_InitFlat (memset stack NUL sizeofSteamErrMsg)).2 = some [] := by
    rw [hz, hr]
    exact printfS_message [] (List.replicate 1023 NUL) (by simp)
  refine ⟨_, SteamAPI_Init_of_ne_zero sdk stack w [] (by rw [h1]; exact hne) h2, ?_, ?_⟩
  · simp [hz]
  · simp [h1]

/-- Witness for C10: the local array is full of the char x before the memset, and the
initializer fails with code 5 without touching the buffer. -/
theorem SteamAPI_Init_zeroed_buffer_witness :
    (List.replicate 1024 'x').length = 1024 ∧
    sdkSilent.SteamAPI_InitFlat (List.replicate 1024 NUL) = (5, List.replicate 1024 NUL) ∧
    memset (List.replicate 1024 'x') NUL sizeofSteamErrMsg = List.replicate 1024 NUL ∧
    ∃ w', SteamAPI_Init sdkSilent (List.replicate 1024 'x') emptyWorld = some (false, w') ∧
      w'.calls = emptyWorld.calls ++ [SdkCall.InitFlat (List.replicate 1024 NUL)] ∧
      w'.stderr = emptyWorld.stderr ++ "SteamAPI_Init (shim): InitFlat failed (".toList
        ++ printfD 5 ++ "): ".toList ++ ['\n'] :=
  ⟨by simp, rfl,
   (SteamAPI_Init_zeroed_buffer sdkSilent (List.replicate 1024 'x') emptyWorld (by simp)).1,
   (SteamAPI_Init_zeroed_buffer sdkSilent (List.replicate 1024 'x') emptyWorld (by simp)).2
      5 rfl (by decide)⟩

/-! ## Version shims -/

/-- C2: for every assignment of return pointers to the real SDK accessors, each of the 18 legacy
version accessors returns exactly the pointer returned by the corresponding real accessor of the
same interface in the current SDK, unchanged.  The corresponding accessor is the real accessor
of the same interface and of the same kind (user or game server); the SDK declares no
game-server accessor for ISteamApps, and SteamAPI_SteamGameServerApps_v008 returns the pointer
of SteamAPI_SteamApps_v009, the accessor the SDK declares for that interface. -/
theorem version_shims_forward (sdk : Sdk) (w : World) :
    (SteamShim.SteamAPI_SteamUser_v020 sdk w).1 = sdk.accessor .SteamAPI_SteamUser_v023 ∧
    (SteamShim.SteamAPI_SteamFriends_v017 sdk w).1 = sdk.accessor .SteamAPI_SteamFriends_v018 ∧
    (SteamShim.SteamAPI_SteamUtils_v009 sdk w).1 = sdk.accessor .SteamAPI_SteamUtils_v010 ∧
    (SteamShim.SteamAPI_SteamRemoteStorage_v014 sdk w).1 = sdk.accessor .SteamAPI_SteamRemoteStorage_v016 ∧
    (SteamShim.SteamAPI_SteamUserStats_v011 sdk w).1 = sdk.accessor .SteamAPI_SteamUserStats_v013 ∧
    (SteamShim.SteamAPI_SteamApps_v008 sdk w).1 = sdk.accessor .SteamAPI_SteamApps_v009 ∧
    (SteamShim.SteamAPI_SteamInput_v001 sdk w).1 = sdk.accessor .SteamAPI_SteamInput_v006 ∧
    (SteamShim.SteamAPI_SteamUGC_v014 sdk w).1 = sdk.accessor .SteamAPI_SteamUGC_v021 ∧
    (SteamShim.SteamAPI_SteamVideo_v002 sdk w).1 = sdk.accessor .SteamAPI_SteamVideo_v007 ∧
    (SteamShim.SteamAPI_SteamController_v007 sdk w).1 = sdk.accessor .SteamAPI_SteamController_v008 ∧
    (SteamShim.SteamAPI_SteamRemotePlay_v001 sdk w).1 = sdk.accessor .SteamAPI_SteamRemotePlay_v004 ∧
    (SteamShim.SteamAPI_SteamNetworkingSockets_v008 sdk w).1 = sdk.accessor .SteamAPI_SteamNetworkingSockets_SteamAPI_v012 ∧
    (SteamShim.SteamAPI_SteamNetworkingUtils_v003 sdk w).1 = sdk.accessor .SteamAPI_SteamNetworkingUtils_SteamAPI_v004 ∧
    (SteamShim.SteamAPI_SteamGameServer_v013 sdk w).1 = sdk.accessor .SteamAPI_SteamGameServer_v015 ∧
    (SteamShim.SteamAPI_SteamGameServerApps_v008 sdk w).1 = sdk.accessor .SteamAPI_SteamApps_v009 ∧
    (SteamShim.SteamAPI_SteamGameServerUtils_v009 sdk w).1 = sdk.accessor .SteamAPI_SteamGameServerUtils_v010 ∧
    (SteamShim.SteamAPI_SteamGameServerNetworkingSockets_v008 sdk w).1 = sdk.accessor .SteamAPI_SteamGameServerNetworkingSockets_SteamAPI_v012 ∧
    (SteamShim.SteamAPI_SteamGameServerUGC_v014 sdk w).1 = sdk.accessor .SteamAPI_SteamGameServerUGC_v021 ∧
    legacyAccessors.length = 18 ∧
    (∀ l : LegacyAccessor, l ∈ legacyAccessors) ∧
    (∀ l : LegacyAccessor, ∃ r : RealAccessor,
      currentAccessor l = some r ∧ r.interface = l.interface ∧
      (callLegacy sdk l w).1 = sdk.accessor r) := by
  refine ⟨rfl, rfl, rfl, rfl, rfl, rfl, rfl, rfl, rfl, rfl, rfl, rfl, rfl, rfl, rfl, rfl, rfl, rfl,
    rfl, ?_, ?_⟩
  · intro l; cases l <;> decide
  · intro l; cases l <;> exact ⟨_, rfl, rfl, rfl⟩

/-! ## Stubs -/

/-- The value returned by a stub call depends on the symbol only. -/
theorem callStub_value (c : StubCall) (w : World) : (callStub c w).1 = c.stub.value := by
  cases c <;> rfl

/-- A stub call leaves the world as it was. -/
theorem callStub_world (c : StubCall) (w : World) : (callStub c w).2 = w := by
  cases c <;> rfl

/-- C3: the accessors of the interfaces removed from the SDK return NULL on every call:
the four v001 accessors, and the three ISteamClient getters for every self pointer, user handle,
pipe handle and version string. -/
theorem removed_interface_accessors_return_NULL (w : World) :
    (SteamAPI_SteamAppList_v001 w).1 = NULL ∧
    (SteamAPI_SteamGameSearch_v001 w).1 = NULL ∧
    (SteamAPI_SteamMusicRemote_v001 w).1 = NULL ∧
    (SteamAPI_SteamTV_v001 w).1 = NULL ∧
    (∀ (self : Ptr) (hSteamUser hSteamPipe : Int) (pchVersion : Ptr),
      (SteamAPI_ISteamClient_GetISteamAppList self hSteamUser hSteamPipe pchVersion w).1 = NULL ∧
      (SteamAPI_ISteamClient_GetISteamGameSearch self hSteamUser hSteamPipe pchVersion w).1
        = NULL ∧
      (SteamAPI_ISteamClient_GetISteamMusicRemote self hSteamUser hSteamPipe pchVersion w).1
        = NULL) :=
  ⟨rfl, rfl, rfl, rfl, fun _ _ _ _ => ⟨rfl, rfl, rfl⟩⟩

/-- C4: among all bool-returning stubs, SteamAPI_ISteamUserStats_RequestCurrentStats is the only
one that reports success.  It returns true for every self pointer, and a stub call returns the
bool false exactly when it is a call of ISteamUtils_GetCSERIPPort,
ISteamNetworkingSockets_GetQuickConnectionStatus, ISteamGameServer_SendUserConnectAndAuthenticate,
ISteamTV_IsBroadcasting, ISteamNetworkingConnectionCustomSignaling_SendSignal or one of the 32
ISteamMusicRemote functions, whatever the arguments. -/
theorem bool_stubs_only_RequestCurrentStats_true (c : StubCall) (w : World) :
    (∀ self : Ptr, (SteamAPI_ISteamUserStats_RequestCurrentStats self w).1 = true) ∧
    ((callStub c w).1 = Ret.bool true ↔
      c.stub = Stub.SteamAPI_ISteamUserStats_RequestCurrentStats) ∧
    ((callStub c w).1 = Ret.bool false ↔
      c.stub ∈ [Stub.SteamAPI_ISteamUtils_GetCSERIPPort,
                Stub.SteamAPI_ISteamNetworkingSockets_GetQuickConnectionStatus,
                Stub.SteamAPI_ISteamGameServer_SendUserConnectAndAuthenticate,
                Stub.SteamAPI_ISteamTV_IsBroadcasting,
                Stub.SteamAPI_ISteamNetworkingConnectionCustomSignaling_SendSignal]
              ++ stubsNamed "SteamAPI_ISteamMusicRemote_") ∧
    (stubsNamed "SteamAPI_ISteamMusicRemote_").length = 32 := by
  refine ⟨fun _ => rfl, ?_, ?_, by decide⟩
  · rw [callStub_value]
    generalize c.stub = s
    cases s <;> decide
  · rw [callStub_value]
    generalize c.stub = s
    cases s <;> decide

/-- C5: every integer-returning stub returns 0 for every combination of arguments, except
SteamAPI_ISteamNetworkingUtils_GetFirstConfigValue, which returns -1 for every self pointer.
The integer-returning stubs are ISteamFriends_GetUserRestrictions, ISteamFriends_SetPersonaName,
ISteamUser_InitiateGameConnection, the 5 ISteamAppList functions, the 14 ISteamGameSearch
functions, ISteamTV_AddRegion and GetFirstConfigValue. -/
theorem integer_stubs_return_zero (c : StubCall) (w : World) :
    (∀ self : Ptr, (SteamAPI_ISteamNetworkingUtils_GetFirstConfigValue self w).1 = -1) ∧
    ((callStub c w).1.isInteger = true ↔
      c.stub ∈ [Stub.SteamAPI_ISteamFriends_GetUserRestrictions,
                Stub.SteamAPI_ISteamFriends_SetPersonaName,
                Stub.SteamAPI_ISteamUser_InitiateGameConnection,
                Stub.SteamAPI_ISteamTV_AddRegion,
                Stub.SteamAPI_ISteamNetworkingUtils_GetFirstConfigValue]
              ++ stubsNamed "SteamAPI_ISteamAppList_"
              ++ stubsNamed "SteamAPI_ISteamGameSearch_") ∧
    ((callStub c w).1 = Ret.int (-1) ↔
      c.stub = Stub.SteamAPI_ISteamNetworkingUtils_GetFirstConfigValue) ∧
    (((callStub c w).1 = Ret.int 0 ∨ (callStub c w).1 = Ret.uint 0) ↔
      ((callStub c w).1.isInteger = true ∧
        c.stub ≠ Stub.SteamAPI_ISteamNetworkingUtils_GetFirstConfigValue)) ∧
    (stubsNamed "SteamAPI_ISteamAppList_").length = 5 ∧
    (stubsNamed "SteamAPI_ISteamGameSearch_").length = 14 := by
  refine ⟨fun _ => rfl, ?_, ?_, ?_, by decide, by decide⟩
  · rw [callStub_value]
    generalize c.stub = s
    cases s <;> decide
  · rw [callStub_value]
    generalize c.stub = s
    cases s <;> decide
  · rw [callStub_value]
    generalize c.stub = s
    cases s <;> decide

/-- C8: every stub is a stateless no-op.  A call of any stub of lines 93 to 96 and 105 to 213,
the void stubs included, with any argument tuple leaves the world (the stderr log, the trace of
calls into the real SDK, the memory reachable through pointer arguments) unchanged, so nothing
is written through out-pointer arguments such as unIP and usPort of GetCSERIPPort, pnNumViewers
of IsBroadcasting or pchName of GetAppName; and its result is the same on every call of the
same symbol, whatever the arguments and the world left by earlier calls. -/
theorem stubs_are_stateless_noops (c : StubCall) (w : World) :
    (callStub c w).2 = w ∧
    (callStub c w).2.stderr = w.stderr ∧
    (callStub c w).2.calls = w.calls ∧
    (∀ p : Ptr, (callStub c w).2.mem p = w.mem p) ∧
    (∀ (c' : StubCall) (w' : World), c'.stub = c.stub → (callStub c' w').1 = (callStub c w).1) ∧
    (∀ self unIP usPort : Ptr,
      (SteamAPI_ISteamUtils_GetCSERIPPort self unIP usPort w).2.mem unIP = w.mem unIP ∧
      (SteamAPI_ISteamUtils_GetCSERIPPort self unIP usPort w).2.mem usPort = w.mem usPort) ∧
    (∀ self pnNumViewers : Ptr,
      (SteamAPI_ISteamTV_IsBroadcasting self pnNumViewers w).2.mem pnNumViewers
        = w.mem pnNumViewers) ∧
    (∀ (self : Ptr) (nAppID : Nat) (pchName : Ptr) (cchNameMax : Int) (i : Nat),
      (SteamAPI_ISteamAppList_GetAppName self nAppID pchName cchNameMax w).2.mem (pchName + i)
        = w.mem (pchName + i)) ∧
    (∀ s : Stub, s ∈ allStubs) ∧
    allStubs.length = 85 := by
  have hw := callStub_world c w
  refine ⟨hw, by rw [hw], by rw [hw], fun p => by rw [hw], fun c' w' h => ?_,
    fun _ _ _ => ⟨rfl, rfl⟩, fun _ _ => rfl, fun _ _ _ _ _ => rfl, ?_, by decide⟩
  · rw [callStub_value, callStub_value, h]
  · intro s; cases s <;> decide

/-- Witness for C8: two calls of GetCSERIPPort with different arguments in different worlds
return the same value. -/
theorem stubs_are_stateless_noops_witness :
    (StubCall.SteamAPI_ISteamUtils_GetCSERIPPort 1 2 3).stub
      = (StubCall.SteamAPI_ISteamUtils_GetCSERIPPort 7 8 9).stub ∧
    (callStub (StubCall.SteamAPI_ISteamUtils_GetCSERIPPort 1 2 3) ⟨['x'], [], fun _ => 1⟩).1
      = (callStub (StubCall.SteamAPI_ISteamUtils_GetCSERIPPort 7 8 9) emptyWorld).1 :=
  ⟨rfl, (stubs_are_stateless_noops (StubCall.SteamAPI_ISteamUtils_GetCSERIPPort 7 8 9)
    emptyWorld).2.2.2.2.1 (StubCall.SteamAPI_ISteamUtils_GetCSERIPPort 1 2 3)
    ⟨['x'], [], fun _ => 1⟩ rfl⟩

/-- C9: the section of stubs for removed flat API functions, from
SteamAPI_ISteamUserStats_RequestCurrentStats to
SteamAPI_ISteamNetworkingCustomSignalingRecvContext_SendRejectionSignal, holds the stubs whose
name starts with SteamAPI_ISteam; it defines 81 of them, not the 82 of the header comment, and
their names are pairwise distinct. -/
theorem removed_flat_stubs_count :
    removedFlatStubs = stubsNamed "SteamAPI_ISteam" ∧
    removedFlatStubs.head? = some Stub.SteamAPI_ISteamUserStats_RequestCurrentStats ∧
    removedFlatStubs.getLast? =
      some Stub.SteamAPI_ISteamNetworkingCustomSignalingRecvContext_SendRejectionSignal ∧
    removedFlatStubs.length = 81 ∧
    removedFlatStubs.length ≠ 82 ∧
    (removedFlatStubs.map Stub.name).Nodup := by
  refine ⟨by decide, by decide, by decide, by decide, by decide, by decide⟩

end SteamShim
